import Mathlib


/-!
Verification development for the claude-server repository: a CDK stack
(`lib/claude-server-stack.ts`) that validates a deployment configuration,
composes AWS resources (security group, IAM role, EC2 instance, optional
Elastic IP, optional Route 53 A record) and injects a rendered boot script
(`scripts/init.sh`) into the instance user data.

The development shallowly embeds:
  * the configuration record and `validateConfig`,
  * `parseInstanceType` (with the AWS instance class/size enum key sets
    abstracted as parameters, since they live in the external CDK library),
  * the resource composition performed by the `ClaudeServerStack` constructor,
  * the textual placeholder substitution applied to the boot script template
    (JavaScript `String.replace` with a global literal pattern: left-to-right,
    non-overlapping, replacement text never rescanned within one pass), and
  * the state-relevant steps of the boot script `scripts/init.sh`
    (SSM password retrieval, certbot skip, SSH key appending, claude install
    skip), with external package installs abstracted as succeeding.
-/

set_option maxRecDepth 40000


/-! ## Generic machinery: literal pattern scanning over character lists

`prefB p s` decides whether `p` is a prefix of `s`; `occB p s` whether `p`
occurs as a contiguous sublist of `s`; `replA p v s` is JavaScript
`s.replace(/p/g, v)` for a literal pattern `p`: scan `s` left to right, on a
match emit `v` and continue after the matched text (never rescanning `v`),
otherwise copy one character.  `cleanB q f` says no position of `f` can start
an occurrence of `q`, even one that would continue past the end of `f`. -/

def prefB : List Char → List Char → Bool
  | [], _ => true
  | _ :: _, [] => false
  | a :: as, b :: bs => a == b && prefB as bs


def occB (p : List Char) : List Char → Bool
  | [] => prefB p []
  | c :: cs => prefB p (c :: cs) || occB p cs


def cleanB (q : List Char) : List Char → Bool
  | [] => true
  | c :: cs => !(prefB q (c :: cs) || prefB (c :: cs) q) && cleanB q cs


def replA (p v : List Char) : List Char → List Char
  | [] => []
  | c :: cs =>
    if !p.isEmpty && prefB p (c :: cs) then
      v ++ replA p v (cs.drop (p.length - 1))
    else
      c :: replA p v cs
termination_by s => s.length
decreasing_by
  · simp only [List.length_drop, List.length_cons]
    omega
  · simp


/-! ## String-level wrappers

`jsReplaceAll s p v` is the JavaScript expression `s.replace(/p/g, v)` for a
literal pattern `p` (dollar escape sequences in `v` are not interpreted; the
theorems below only apply it to replacement values without `$`). -/

def jsReplaceAll (s p v : String) : String := String.mk (replA p.data v.data s.data)


def occursS (q s : String) : Bool := occB q.data s.data


def cleanS (q x : String) : Bool := cleanB q.data x.data


/-! ## The deployment configuration (`config/config.ts`, interface `Config`)

Optional fields are `Option`s; JavaScript truthiness of an optional string is
"present and non-empty", of an optional boolean "present and `true`". -/

structure Config where
  region : String
  domain : String
  hostedZoneId : Option String
  useElasticIp : Option Bool
  ssmPasswordParameterName : String
  email : String
  keyPairName : String
  additionalSshPublicKeys : Option (List String)
  instanceType : String
  volumeSize : Int
  enableSshPasswordAuth : Option Bool


/-- Truthiness of `config.useElasticIp` as tested by `if (config.useElasticIp)`. -/
def elasticIpOn (cfg : Config) : Bool :=
  match cfg.useElasticIp with
  | some b => b
  | none => false


/-- Truthiness of `config.hostedZoneId` as tested by `if (config.hostedZoneId)`:
an absent or empty string is falsy. -/
def hostedZoneOn (cfg : Config) : Bool :=
  match cfg.hostedZoneId with
  | some z => !(z == "")
  | none => false


deriving instance DecidableEq for Except


/-! ### Executable counterparts of the JavaScript string methods

Core `String.startsWith`, `String.contains`, `String.trim`, `String.toUpper`
and `String.splitOn` do not reduce inside the kernel, so the JavaScript
methods used by the source are given structural char-list implementations:
`startsWithB s pre` is `s.startsWith(pre)`, `containsCharB s c` is
`s.includes(c)`, `trimS` is `s.trim()` (ASCII whitespace), `toUpperS` is
`s.toUpperCase()` (ASCII), `splitOnCharS sep s` is `s.split(sep)` for a
single-character separator, and `joinNl` is `Array.join('\n')`. -/

def startsWithB (s pre : String) : Bool := prefB pre.data s.data


def containsCharB (s : String) (c : Char) : Bool := s.data.contains c


def trimS (s : String) : String :=
  String.mk (((s.data.dropWhile Char.isWhitespace).reverse.dropWhile Char.isWhitespace).reverse)


def toUpperS (s : String) : String := String.mk (s.data.map Char.toUpper)


def splitOnCharA (sep : Char) : List Char → List (List Char)
  | [] => [[]]
  | c :: cs =>
    if c == sep then [] :: splitOnCharA sep cs
    else
      match splitOnCharA sep cs with
      | [] => [[c]]
      | l :: ls => (c :: l) :: ls


def splitOnCharS (sep : Char) (s : String) : List String :=
  (splitOnCharA sep s.data).map String.mk


def joinNl : List String → String
  | [] => ""
  | [k] => k
  | k :: ks => k ++ "\n" ++ joinNl ks


/-! ### `validateConfig` -/

def isAlnumB (c : Char) : Bool :=
  (('a' ≤ c && c ≤ 'z') || ('A' ≤ c && c ≤ 'Z') || ('0' ≤ c && c ≤ '9'))


def isAlnumHyphenB (c : Char) : Bool := isAlnumB c || c == '-'


def isAlphaB (c : Char) : Bool := ('a' ≤ c && c ≤ 'z') || ('A' ≤ c && c ≤ 'Z')


/-- Tail of a domain label after its first character: all middle characters
are alphanumeric or hyphen and the final character is alphanumeric
(`([a-z0-9-]*[a-z0-9])?`, case-insensitive). -/
def labelTailB : List Char → Bool
  | [] => true
  | [c] => isAlnumB c
  | c :: cs => isAlnumHyphenB c && labelTailB cs


/-- One domain label: `[a-z0-9]([a-z0-9-]*[a-z0-9])?`, case-insensitive. -/
def labelB (l : List Char) : Bool :=
  match l with
  | [] => false
  | c :: cs => isAlnumB c && labelTailB cs


/-- Final domain part: `[a-z]{2,}`, case-insensitive. -/
def tldB (l : List Char) : Bool :=
  decide (2 ≤ l.length) && l.all isAlphaB


/-- The domain regular expression
`/^[a-z0-9]([a-z0-9-]*[a-z0-9])?(\.[a-z0-9]([a-z0-9-]*[a-z0-9])?)*\.[a-z]{2,}$/i`:
splitting on `.` yields at least one label followed by a final alphabetic
part of length at least two. -/
def domainFormatB (s : String) : Bool :=
  let parts := splitOnCharS '.' s
  decide (2 ≤ parts.length) &&
    parts.dropLast.all (fun p => labelB p.data) &&
    tldB (parts.getLastD "").data


/-- The SSH public key pattern `/^(ssh-rsa|ssh-ed25519|ecdsa-sha2-nistp)/`. -/
def sshKeyPatternB (k : String) : Bool :=
  startsWithB k "ssh-rsa" || startsWithB k "ssh-ed25519" || startsWithB k "ecdsa-sha2-nistp"


/-- Fail-fast check of `additionalSshPublicKeys` entries, reporting the index
of the first entry that does not match `sshKeyPatternB`. -/
def checkSshKeys : Nat → List String → Except String Unit
  | _, [] => Except.ok ()
  | i, k :: ks =>
    if sshKeyPatternB k then checkSshKeys (i + 1) ks
    else Except.error ("additionalSshPublicKeys[" ++ toString i ++ "] is not a valid SSH public key. " ++
      "Expected format: \"ssh-rsa AAAA...\" or \"ssh-ed25519 AAAA...\"")


/-- `validateConfig` from `lib/claude-server-stack.ts`: fail-fast field checks
in source order, `Except.error` standing for the thrown `Error`. -/
def validateConfig (cfg : Config) : Except String Unit := do
  if cfg.domain == "" || !domainFormatB cfg.domain then
    Except.error ("Invalid domain format: \"" ++ cfg.domain ++ "\". Expected format: subdomain.domain.tld")
  else if (match cfg.hostedZoneId with
           | some z => !(z == "") && !(startsWithB z "Z")
           | none => false) then
    Except.error ("Invalid hostedZoneId: \"" ++
      (match cfg.hostedZoneId with | some z => z | none => "") ++ "\". Must start with 'Z'")
  else if cfg.ssmPasswordParameterName == "" || !(startsWithB cfg.ssmPasswordParameterName "/") then
    Except.error "ssmPasswordParameterName must start with \"/\" (e.g., /claude-server/code-server-password)"
  else if cfg.email == "" || !(containsCharB cfg.email '@') || !(containsCharB cfg.email '.') then
    Except.error ("Invalid email format: \"" ++ cfg.email ++ "\"")
  else if cfg.keyPairName == "" || trimS cfg.keyPairName == "" then
    Except.error "keyPairName is required"
  else if cfg.volumeSize < 8 || 16384 < cfg.volumeSize then
    Except.error ("volumeSize must be between 8 and 16384 GB, got: " ++ toString cfg.volumeSize)
  else
    match cfg.additionalSshPublicKeys with
    | some keys => checkSshKeys 0 keys
    | none => Except.ok ()


/-! ## The boot script template and its rendering

`initShTemplate` is the exact text of `scripts/init.sh`, written as the
concatenation of its placeholder-free segments `initShSeg0 .. initShSeg11`
and the six placeholder tokens, in file order (the file contains exactly
eleven placeholder occurrences). -/

def tokDomain : String := "__DOMAIN__"


def tokEmail : String := "__EMAIL__"


def tokRegion : String := "__AWS_REGION__"


def tokSsm : String := "__SSM_PASSWORD_PARAMETER__"


def tokFlag : String := "__ENABLE_SSH_PASSWORD_AUTH__"


def tokKeys : String := "__ADDITIONAL_SSH_KEYS__"


def initShSeg0 : String := "#!/bin/bash\nset -e\n\n# Logging setup\nexec > >(tee -a /var/log/user-data.log)\nexec 2>&1\n\necho \"==========================================\"\necho \"Starting setup at $(date)\"\necho \"==========================================\"\n\n# === CONFIGURATION (injected by CDK) ===\nDOMAIN=\""


def initShSeg1 : String := "\"\nEMAIL=\""


def initShSeg2 : String := "\"\nAWS_REGION=\""


def initShSeg3 : String := "\"\nSSM_PASSWORD_PARAMETER=\""


def initShSeg4 : String := "\"\nENABLE_SSH_PASSWORD_AUTH=\""


def initShSeg5 : String := "\"\n\n# === INSTALLATION PACKAGES ===\necho \"[1/8] Installing packages...\"\ndnf update -y\ndnf install -y nginx git nodejs22 nodejs22-npm tmux screen\n\n# === GITHUB CLI ===\necho \"[1b/8] Installing GitHub CLI...\"\ndnf install -y \x27dnf-command(config-manager)\x27\ndnf config-manager --add-repo https://cli.github.com/packages/rpm/gh-cli.repo\ndnf install -y gh --repo gh-cli\n\n# === RETRIEVE PASSWORD FROM SSM ===\necho \"[2/8] Retrieving code-server password from SSM...\"\n\n# Check if AWS CLI is available\nif ! command -v aws &> /dev/null; then\n  echo \"ERROR: AWS CLI is not installed or not in PATH\"\n  exit 1\nfi\n\n# Retrieve password with explicit error handling\nset +e  # Temporarily disable exit on error to capture the error message\nSSM_OUTPUT=$(aws ssm get-parameter \\\n  --name \"$\x7bSSM_PASSWORD_PARAMETER\x7d\" \\\n  --with-decryption \\\n  --query \"Parameter.Value\" \\\n  --output text \\\n  --region \"$\x7bAWS_REGION\x7d\" 2>&1)\nSSM_EXIT_CODE=$?\nset -e  # Re-enable exit on error\n\nif [ $SSM_EXIT_CODE -ne 0 ]; then\n  echo \"ERROR: Failed to retrieve password from SSM Parameter Store\"\n  echo \"Details: $\x7bSSM_OUTPUT\x7d\"\n  echo \"Check: 1) Parameter exists, 2) IAM permissions, 3) Parameter name is correct\"\n  exit 1\nfi\n\nCODE_SERVER_PASSWORD=\"$\x7bSSM_OUTPUT\x7d\"\n\nif [ -z \"$CODE_SERVER_PASSWORD\" ]; then\n  echo \"ERROR: Retrieved empty password from SSM Parameter Store ($\x7bSSM_PASSWORD_PARAMETER\x7d)\"\n  exit 1\nfi\necho \"Password retrieved successfully from SSM\"\n\n# === CODE-SERVER ===\necho \"[3/8] Installing code-server...\"\nexport HOME=/root\nif ! command -v code-server &> /dev/null; then\n  curl -fsSL https://code-server.dev/install.sh | sh\nelse\n  echo \"code-server already installed, skipping\"\nfi\n\n# Config code-server\nmkdir -p /home/ec2-user/.config/code-server\ncat > /home/ec2-user/.config/code-server/config.yaml << EOF\nbind-addr: 127.0.0.1:8080\nauth: password\npassword: $\x7bCODE_SERVER_PASSWORD\x7d\ncert: false\nEOF\n\nchown -R ec2-user:ec2-user /home/ec2-user/.config\nchmod 600 /home/ec2-user/.config/code-server/config.yaml\n\n# Service code-server\nsystemctl enable --now code-server@ec2-user\n\n# === NGINX (HTTP only for certbot) ===\necho \"[4/8] Configuring nginx...\"\nmkdir -p /var/www/html\n\ncat > /etc/nginx/conf.d/code-server.conf << \x27NGINX_EOF\x27\nserver \x7b\n    listen 80;\n    server_name "


def initShSeg6 : String := ";\n\n    location /.well-known/acme-challenge/ \x7b\n        root /var/www/html;\n    \x7d\n\n    location / \x7b\n        return 301 https://$host$request_uri;\n    \x7d\n\x7d\nNGINX_EOF\n\nsystemctl enable nginx\nsystemctl restart nginx\n\n# === CERTBOT ===\necho \"[5/8] Setting up SSL certificate...\"\ndnf install -y certbot\n\nif [ -f \"/etc/letsencrypt/live/$\x7bDOMAIN\x7d/fullchain.pem\" ]; then\n  echo \"SSL certificate already exists, skipping certbot\"\nelse\n  # Use webroot mode (no nginx plugin conflict)\n  certbot certonly --webroot -w /var/www/html \\\n    -d \"$\x7bDOMAIN\x7d\" --non-interactive --agree-tos -m \"$\x7bEMAIL\x7d\"\nfi\n\n# === NGINX SSL CONFIG ===\n# Write the full SSL config (cert must exist at this point)\ncat > /etc/nginx/conf.d/code-server.conf << \x27NGINX_EOF\x27\n# WebSocket upgrade mapping\nmap $http_upgrade $connection_upgrade \x7b\n    default upgrade;\n    \x27\x27 close;\n\x7d\n\nserver \x7b\n    listen 80;\n    server_name "


def initShSeg7 : String := ";\n\n    location /.well-known/acme-challenge/ \x7b\n        root /var/www/html;\n    \x7d\n\n    location / \x7b\n        return 301 https://$host$request_uri;\n    \x7d\n\x7d\n\nserver \x7b\n    listen 443 ssl http2;\n    server_name "


def initShSeg8 : String := ";\n\n    # SSL certificates\n    ssl_certificate /etc/letsencrypt/live/"


def initShSeg9 : String := "/fullchain.pem;\n    ssl_certificate_key /etc/letsencrypt/live/"


def initShSeg10 : String := "/privkey.pem;\n\n    # SSL settings\n    ssl_protocols TLSv1.2 TLSv1.3;\n    ssl_prefer_server_ciphers on;\n    ssl_session_cache shared:SSL:10m;\n    ssl_session_timeout 10m;\n\n    # Security headers\n    add_header X-Frame-Options \"SAMEORIGIN\" always;\n    add_header X-Content-Type-Options \"nosniff\" always;\n    add_header X-XSS-Protection \"1; mode=block\" always;\n    add_header Strict-Transport-Security \"max-age=31536000; includeSubDomains\" always;\n\n    location / \x7b\n        proxy_pass http://127.0.0.1:8080;\n        proxy_set_header Host $host;\n        proxy_set_header Upgrade $http_upgrade;\n        proxy_set_header Connection $connection_upgrade;\n        proxy_set_header Accept-Encoding gzip;\n        proxy_set_header X-Real-IP $remote_addr;\n        proxy_set_header X-Forwarded-For $proxy_add_x_forwarded_for;\n        proxy_set_header X-Forwarded-Proto $scheme;\n        proxy_read_timeout 600s;\n        proxy_send_timeout 600s;\n    \x7d\n\x7d\nNGINX_EOF\n\nnginx -t && systemctl restart nginx\n\n# === SSH PASSWORD AUTH (optional) ===\nif [ \"$ENABLE_SSH_PASSWORD_AUTH\" = \"true\" ]; then\n  echo \"[6/8] Enabling SSH password authentication...\"\n\n  # Set ec2-user password (same as code-server)\n  chpasswd <<< \"ec2-user:$\x7bCODE_SERVER_PASSWORD\x7d\"\n\n  # Enable password authentication in sshd_config (handles both commented and uncommented)\n  sed -i -E \x27s/^#?PasswordAuthentication (yes|no)/PasswordAuthentication yes/\x27 /etc/ssh/sshd_config\n\n  # Validate sshd config before restart\n  if ! sshd -t 2>/dev/null; then\n    echo \"ERROR: Invalid sshd configuration after enabling password auth\"\n    exit 1\n  fi\n\n  # Restart SSH service\n  if ! systemctl restart sshd; then\n    echo \"ERROR: Failed to restart sshd service\"\n    exit 1\n  fi\n\n  echo \"SSH password authentication enabled\"\nelse\n  echo \"[6/8] SSH password authentication disabled (key-based only)\"\nfi\n\n# === ADDITIONAL SSH KEYS ===\necho \"[7/8] Adding additional SSH keys...\"\nADDITIONAL_KEYS=\""


def initShSeg11 : String := "\"\n\n# Check if keys were provided (starts with ssh- means valid key, not empty placeholder)\nif echo \"$ADDITIONAL_KEYS\" | grep -q \"^ssh-\"; then\n  echo \"$ADDITIONAL_KEYS\" | while IFS= read -r key; do\n    if [ -n \"$key\" ] && ! grep -qF \"$key\" /home/ec2-user/.ssh/authorized_keys 2>/dev/null; then\n      echo \"$key\" >> /home/ec2-user/.ssh/authorized_keys\n      echo \"Added SSH key\"\n    fi\n  done\n  chmod 600 /home/ec2-user/.ssh/authorized_keys\n  chown ec2-user:ec2-user /home/ec2-user/.ssh/authorized_keys\nelse\n  echo \"No additional SSH keys configured\"\nfi\n\n# === CLAUDE CODE ===\necho \"[8/8] Installing Claude Code...\"\nif ! command -v claude &> /dev/null; then\n  npm install -g @anthropic-ai/claude-code\nelse\n  echo \"Claude Code already installed, skipping\"\nfi\n\n# === FINALISATION ===\necho \"==========================================\"\necho \"Setup completed at $(date)\"\necho \"==========================================\"\necho \"\"\necho \"Access your dev environment:\"\necho \"  URL: https://$\x7bDOMAIN\x7d\"\necho \"  Password: stored in SSM Parameter Store ($\x7bSSM_PASSWORD_PARAMETER\x7d)\"\necho \"\"\necho \"SSH: ssh ec2-user@$\x7bDOMAIN\x7d\"\necho \"\"\n"


def initShTemplate : String :=
  initShSeg0 ++ tokDomain ++ initShSeg1 ++ tokEmail ++ initShSeg2 ++ tokRegion ++ initShSeg3 ++ tokSsm ++ initShSeg4 ++ tokFlag ++ initShSeg5 ++ tokDomain ++ initShSeg6 ++ tokDomain ++ initShSeg7 ++ tokDomain ++ initShSeg8 ++ tokDomain ++ initShSeg9 ++ tokDomain ++ initShSeg10 ++ tokKeys ++ initShSeg11


/-- The joined additional keys value
`config.additionalSshPublicKeys?.join('\n') || ''`. -/
def additionalSshKeysJoined (cfg : Config) : String :=
  match cfg.additionalSshPublicKeys with
  | some keys => joinNl keys
  | none => ""


/-- The flag value `config.enableSshPasswordAuth ? 'true' : 'false'`. -/
def sshPasswordAuthValue (cfg : Config) : String :=
  match cfg.enableSshPasswordAuth with
  | some true => "true"
  | _ => "false"


/-- The user-data rendering from `lib/claude-server-stack.ts`: six chained
global replaces applied to the template, in source order. -/
def renderUserData (cfg : Config) : String :=
  jsReplaceAll (jsReplaceAll (jsReplaceAll (jsReplaceAll (jsReplaceAll (jsReplaceAll
    initShTemplate
    tokDomain cfg.domain)
    tokEmail cfg.email)
    tokKeys (additionalSshKeysJoined cfg))
    tokRegion cfg.region)
    tokSsm cfg.ssmPasswordParameterName)
    tokFlag (sshPasswordAuthValue cfg)


/-! ## `parseInstanceType` and the stack composition

The AWS CDK enumerations `InstanceClass` and `InstanceSize` live in the
external library; their key sets are passed as parameters `classKeys` /
`sizeKeys`.  The parsed result is the pair of upper-cased keys used for
`InstanceType.of`. -/

def parseInstanceType (classKeys sizeKeys : List String) (instanceType : String) :
    Except String (String × String) :=
  match splitOnCharS '.' instanceType with
  | [classStr, sizeStr] =>
    let classKey := toUpperS classStr
    let sizeKey := toUpperS sizeStr
    if !(classKeys.contains classKey) then
      Except.error ("Unknown instance class: \"" ++ classStr ++ "\". Check AWS EC2 instance types.")
    else if !(sizeKeys.contains sizeKey) then
      Except.error ("Unknown instance size: \"" ++ sizeStr ++ "\". Check AWS EC2 instance types.")
    else
      Except.ok (classKey, sizeKey)
  | _ =>
    Except.error ("Invalid instanceType format: \"" ++ instanceType ++ "\". Expected format: class.size (e.g., t4g.small)")


/-- The advertised public address: either the instance attribute
`instance.instancePublicIp` or the Elastic IP attribute `eip.attrPublicIp`. -/
inductive IpRef where
  | instancePublicIp
  | eipPublicIp
deriving DecidableEq


structure EipDesc where
  domain : String
deriving DecidableEq


structure ARecordDesc where
  hostedZoneId : String
  zoneName : String
  recordName : String
  target : IpRef
  ttlMinutes : Nat
deriving DecidableEq


structure InstanceDesc where
  instanceClassKey : String
  instanceSizeKey : String
  keyPairName : String
  volumeSize : Int
  userData : String
deriving DecidableEq


/-- The resource description produced by the `ClaudeServerStack` constructor:
resource lists plus the `CfnOutput` values. -/
structure StackOut where
  ingressRules : List (Nat × String)
  instances : List InstanceDesc
  eips : List EipDesc
  eipAssociations : List Unit
  aRecords : List ARecordDesc
  publicIpValue : IpRef
  publicIpDescription : String
  accessUrl : String
  sshCommand : String
  dnsSetupValue : String
  dnsSetupDescription : String
  passwordLocation : String
deriving DecidableEq


/-- `config.domain.split('.').slice(1).join('.')` — the parent zone name. -/
def parentDomain (d : String) : String :=
  String.intercalate "." ((splitOnCharS '.' d).drop 1)


/-- The `ClaudeServerStack` constructor: validate, parse the instance type,
then describe the resources.  An `Except.error` models the constructor
throwing before any resource is described.  The mutable `publicIp` /
`dnsAutoConfigured` of the source correspond to the conditionals below:
`publicIp` is reassigned to the Elastic IP attribute exactly when
`useElasticIp` is truthy, and the A record is created exactly when both
`useElasticIp` and `hostedZoneId` are truthy. -/
def buildStack (classKeys sizeKeys : List String) (cfg : Config) :
    Except String StackOut := do
  validateConfig cfg
  let ⟨classKey, sizeKey⟩ ← parseInstanceType classKeys sizeKeys cfg.instanceType
  let dnsAutoConfigured := elasticIpOn cfg && hostedZoneOn cfg
  Except.ok {
    ingressRules := [(443, "HTTPS access for code-server"),
                     (80, "HTTP for Lets Encrypt validation"),
                     (22, "SSH access")]
    instances := [{ instanceClassKey := classKey, instanceSizeKey := sizeKey,
                    keyPairName := cfg.keyPairName, volumeSize := cfg.volumeSize,
                    userData := renderUserData cfg }]
    eips := if elasticIpOn cfg then [{ domain := "vpc" }] else []
    eipAssociations := if elasticIpOn cfg then [()] else []
    aRecords :=
      if elasticIpOn cfg && hostedZoneOn cfg then
        [{ hostedZoneId := (match cfg.hostedZoneId with | some z => z | none => "")
           zoneName := parentDomain cfg.domain
           recordName := cfg.domain
           target := IpRef.eipPublicIp
           ttlMinutes := 5 }]
      else []
    publicIpValue := if elasticIpOn cfg then IpRef.eipPublicIp else IpRef.instancePublicIp
    publicIpDescription :=
      if elasticIpOn cfg then "Elastic IP address (static)"
      else "Public IP address (changes on restart)"
    accessUrl := "https://" ++ cfg.domain
    sshCommand := "ssh ec2-user@" ++ cfg.domain
    dnsSetupValue :=
      if dnsAutoConfigured then "DNS A record created automatically for " ++ cfg.domain
      else "Create A record: " ++ cfg.domain ++ " -> <PublicIP>"
    dnsSetupDescription :=
      if dnsAutoConfigured then "DNS configured automatically via CDK"
      else "DNS configuration required (manual setup in Route 53)"
    passwordLocation := "SSM Parameter Store: " ++ cfg.ssmPasswordParameterName }


/-! ## The boot script `scripts/init.sh` at run time

The script is modelled as a function of the substituted configuration values
(`BootParams`), the environment (`BootEnv`, the outcome of the single
`aws ssm get-parameter` call), and the machine state (`BootState`).
`set -e` aborts and explicit `exit 1` are modelled by `Except.error`
carrying the script's first error message.  Package installation (`dnf`,
`curl | sh`, `npm`), `systemctl` actions and the nginx configuration writes
are abstracted as succeeding and do not affect the modelled state; the
modelled state tracks what the behavioural claims speak about: available
commands (`command -v`), issued certificates
(`/etc/letsencrypt/live/<domain>/fullchain.pem`), the lines of
`/home/ec2-user/.ssh/authorized_keys` and the configured passwords. -/

structure BootParams where
  domain : String
  email : String
  awsRegion : String
  ssmPasswordParameter : String
  enableSshPasswordAuth : String
  additionalKeys : String
deriving DecidableEq


/-- The substituted values a rendered configuration hands to the script. -/
def bootParamsOf (cfg : Config) : BootParams :=
  { domain := cfg.domain
    email := cfg.email
    awsRegion := cfg.region
    ssmPasswordParameter := cfg.ssmPasswordParameterName
    enableSshPasswordAuth := sshPasswordAuthValue cfg
    additionalKeys := additionalSshKeysJoined cfg }


structure BootEnv where
  ssmExitCode : Nat
  ssmOutput : String
deriving DecidableEq


structure BootState where
  installedCommands : List String
  certDomains : List String
  authorizedKeys : List String
  codeServerPassword : Option String
  ec2UserPassword : Option String
  sshdPasswordAuth : Bool
deriving DecidableEq


structure BootLog where
  ranCodeServerInstall : Bool
  ranCertbot : Bool
  ranClaudeInstall : Bool
  passwordUsed : String
deriving DecidableEq


/-- One iteration of the `while IFS= read -r key` loop of step [7/8]:
`if [ -n "$key" ] && ! grep -qF "$key" ~/.ssh/authorized_keys; then append`.
`grep -qF` matches the fixed string anywhere inside any line of the file. -/
def appendKeyLine (fileLines : List String) (key : String) : List String :=
  if !(key == "") && !(fileLines.any (fun line => occursS key line)) then
    fileLines ++ [key]
  else
    fileLines


/-- Step [7/8]: the additional-keys value is split into lines; the whole step
is skipped unless some line starts with `ssh-`
(`echo "$ADDITIONAL_KEYS" | grep -q "^ssh-"`). -/
def addKeysStep (additionalKeys : String) (fileLines : List String) : List String :=
  let lines := splitOnCharS '\n' additionalKeys
  if lines.any (fun l => startsWithB l "ssh-") then
    lines.foldl appendKeyLine fileLines
  else
    fileLines


/-- The boot script, steps [1/8]–[8/8] in order.  Step [2/8] distinguishes a
failing `aws ssm get-parameter` (non-zero exit code) from a successful call
returning the empty string; both abort.  Step [3/8] installs code-server
unless `command -v code-server` already succeeds and writes the retrieved
password into the code-server configuration.  Step [5/8] runs certbot unless
the certificate for the domain already exists.  Step [6/8] sets the ec2-user
password and enables sshd password authentication when the flag value is the
string `true`.  Step [8/8] installs the claude CLI unless `command -v claude`
already succeeds. -/
def runInitScript (env : BootEnv) (p : BootParams) (st : BootState) :
    Except String (BootState × BootLog) :=
  if !(st.installedCommands.contains "aws") then
    Except.error "ERROR: AWS CLI is not installed or not in PATH"
  else if !(env.ssmExitCode == 0) then
    Except.error "ERROR: Failed to retrieve password from SSM Parameter Store"
  else
    let password := env.ssmOutput
    if password == "" then
      Except.error ("ERROR: Retrieved empty password from SSM Parameter Store (" ++
        p.ssmPasswordParameter ++ ")")
    else
      let ranCodeServer := !(st.installedCommands.contains "code-server")
      let installed1 :=
        if ranCodeServer then st.installedCommands ++ ["code-server"]
        else st.installedCommands
      let ranCertbot := !(st.certDomains.contains p.domain)
      let certs1 := if ranCertbot then st.certDomains ++ [p.domain] else st.certDomains
      let pwdAuth := p.enableSshPasswordAuth == "true"
      let keys1 := addKeysStep p.additionalKeys st.authorizedKeys
      let ranClaude := !(installed1.contains "claude")
      let installed2 := if ranClaude then installed1 ++ ["claude"] else installed1
      Except.ok
        ({ installedCommands := installed2
           certDomains := certs1
           authorizedKeys := keys1
           codeServerPassword := some password
           ec2UserPassword := if pwdAuth then some password else st.ec2UserPassword
           sshdPasswordAuth := if pwdAuth then true else st.sshdPasswordAuth },
         { ranCodeServerInstall := ranCodeServer
           ranCertbot := ranCertbot
           ranClaudeInstall := ranClaude
           passwordUsed := password })


/-! ## Remaining definitions used by the theorems -/

/-- Regrouping of the template segments between the `__DOMAIN__` occurrences:
`chunkC1` spans from after the first `__DOMAIN__` occurrence (line 13) to the
second one (line 96), `chunkC6` from after the last one (line 151) to the end
of the file. -/
def chunkC1 : String :=
  initShSeg1 ++ tokEmail ++ initShSeg2 ++ tokRegion ++ initShSeg3 ++ tokSsm ++
    initShSeg4 ++ tokFlag ++ initShSeg5


def chunkC2 : String :=
  initShSeg2 ++ tokRegion ++ initShSeg3 ++ tokSsm ++ initShSeg4 ++ tokFlag ++ initShSeg5


def chunkC3 : String :=
  initShSeg3 ++ tokSsm ++ initShSeg4 ++ tokFlag ++ initShSeg5


def chunkC4 : String :=
  initShSeg4 ++ tokFlag ++ initShSeg5


def chunkC6 : String :=
  initShSeg10 ++ tokKeys ++ initShSeg11


/-- The six placeholder tokens, in the order they are replaced by the stack. -/
def placeholderTokens : List String :=
  [tokDomain, tokEmail, tokKeys, tokRegion, tokSsm, tokFlag]


/-- A replacement value that cannot interfere with the remaining substitution
passes in my model: it contains no `$` (so literal insertion agrees with the
JavaScript replacement semantics) and no position of it can start an
occurrence of any placeholder token that would extend beyond it. -/
def valueCleanB (v : String) : Bool :=
  !(containsCharB v '$') && placeholderTokens.all (fun t => cleanS t v)


/-- All six substituted values of a configuration are clean. -/
def cleanConfigValues (cfg : Config) : Bool :=
  valueCleanB cfg.domain && valueCleanB cfg.email &&
    valueCleanB (additionalSshKeysJoined cfg) && valueCleanB cfg.region &&
    valueCleanB cfg.ssmPasswordParameterName && valueCleanB (sshPasswordAuthValue cfg)


/-- The fully substituted script as an explicit interleaving of the template
segments with the six substituted values. -/
def renderedForm (vD vE vK vR vS vP : String) : String :=
  initShSeg0 ++ vD ++ initShSeg1 ++ vE ++ initShSeg2 ++ vR ++ initShSeg3 ++ vS ++
    initShSeg4 ++ vP ++ initShSeg5 ++ vD ++ initShSeg6 ++ vD ++ initShSeg7 ++ vD ++
    initShSeg8 ++ vD ++ initShSeg9 ++ vD ++ initShSeg10 ++ vK ++ initShSeg11


/-- The criterion stated by the claim for C9, following the spec's words: the
email contains `@` and a dot-separated domain segment after the `@`. -/
def specEmailDomainSegment (e : String) : Bool :=
  containsCharB e '@' &&
    ((e.data.dropWhile (fun c => !(c == '@'))).drop 1).contains '.'


/-- First occurrences of a list of keys, skipping keys already seen. -/
def dedupKeep : List String → List String → List String
  | _, [] => []
  | seen, k :: ks =>
    if seen.contains k then dedupKeep seen ks
    else k :: dedupKeep (seen ++ [k]) ks


/-! ### Concrete data for witnesses and counterexamples -/

/-- A representative valid configuration (the values of `config.example.ts`,
with the automatic-DNS pair enabled). -/
def cfgExample : Config :=
  { region := "us-east-1", domain := "dev.example.com",
    hostedZoneId := some "Z0123456789ABC", useElasticIp := some true,
    ssmPasswordParameterName := "/claude-server/code-server-password",
    email := "your@email.com", keyPairName := "your-key-pair-name",
    additionalSshPublicKeys := none, instanceType := "t4g.small",
    volumeSize := 30, enableSshPasswordAuth := some false }


/-- The spec's example input: `hostedZoneId` absent, `useElasticIp` true. -/
def cfgManualDns : Config :=
  { cfgExample with hostedZoneId := none }


/-- A validated configuration whose unchecked `region` value smuggles the
`__DOMAIN__` placeholder token into the rendered script. -/
def cfgRegionInjection : Config :=
  { cfgExample with region := "x__DOMAIN__x" }


/-- A configuration whose email has a dot before the `@` but no domain
segment after it. -/
def cfgEmailNoSegment : Config :=
  { cfgExample with email := "a.b@c" }


/-- A configuration whose single additional key is of the `ecdsa` type the
validator accepts. -/
def ecdsaKey : String :=
  "ecdsa-sha2-nistp256 AAAAE2VjZHNhLXNoYTItbmlzdHAyNTYAAAAIbmlzdHAyNTY= user@yubikey"


def cfgEcdsaOnly : Config :=
  { cfgExample with additionalSshPublicKeys := some [ecdsaKey] }


/-- Benign boot environment: the SSM call exits 0 with a non-empty secret. -/
def envOk : BootEnv := { ssmExitCode := 0, ssmOutput := "s3cret-pw" }


/-- Fresh first-boot machine state: only the AWS CLI is preinstalled. -/
def stFresh : BootState :=
  { installedCommands := ["aws"], certDomains := [], authorizedKeys := [],
    codeServerPassword := none, ec2UserPassword := none, sshdPasswordAuth := false }


/-- The class/size key sets used by concrete witnesses (a fragment of the CDK
`InstanceClass` / `InstanceSize` enums). -/
def classKeysEx : List String := ["T4G", "T3", "M5"]


def sizeKeysEx : List String := ["MICRO", "SMALL", "MEDIUM", "LARGE"]


def cfgBadEmail : Config := { cfgExample with email := "not-an-email" }


def cfgBadType : Config := { cfgExample with instanceType := "t4g" }


def cfgZoneNoEip : Config := { cfgExample with hostedZoneId := some "Z0123456789ABC", useElasticIp := none }


def envFail : BootEnv := { ssmExitCode := 254, ssmOutput := "AccessDenied" }


def envEmpty : BootEnv := { ssmExitCode := 0, ssmOutput := "" }


def twoKeys : List String :=
  ["ssh-rsa AAAAB3NzaC1yc2E key1", "ssh-ed25519 AAAAC3NzaC1lZDI1 key2"]


def cfgTwoKeys : Config := { cfgExample with additionalSshPublicKeys := some twoKeys }


/-! ## Rendering analysis for C4

`catS` concatenates a list of string pieces; the substitution passes are
peeled piece by piece: a piece that is `cleanS` for the pattern is copied
unchanged, an occurrence of the pattern itself is replaced by the value. -/

def catS : List String → String :=
  List.foldr (fun a b => a ++ b) ""


theorem prefB_append_self (p t : List Char) : prefB p (p ++ t) = true := by
  induction p with
  | nil => rfl
  | cons a as ih => simp [prefB, ih]


theorem prefB_append_mono {p f : List Char} (h : prefB p f = true) (t : List Char) :
    prefB p (f ++ t) = true := by
  induction p generalizing f with
  | nil => rfl
  | cons a as ih =>
    cases f with
    | nil => simp [prefB] at h
    | cons c cs =>
      simp only [prefB, Bool.and_eq_true, beq_iff_eq] at h
      simp [prefB, h.1, ih h.2]


theorem pref_extend {p x : List Char} (t : List Char)
    (h : prefB p (x ++ t) = true) : prefB p x = true ∨ prefB x p = true := by
  induction p generalizing x with
  | nil => exact Or.inl rfl
  | cons a as ih =>
    cases x with
    | nil => exact Or.inr rfl
    | cons c cs =>
      simp only [List.cons_append, prefB, Bool.and_eq_true, beq_iff_eq] at h
      rcases ih (x := cs) h.2 with h2 | h2
      · exact Or.inl (by simp [prefB, h.1, h2])
      · exact Or.inr (by simp [prefB, h.1, h2])


theorem cleanB_cons {q c cs} (h : cleanB q (c :: cs) = true) :
    prefB q (c :: cs) = false ∧ prefB (c :: cs) q = false ∧ cleanB q cs = true := by
  simp only [cleanB, Bool.and_eq_true, Bool.not_eq_true', Bool.or_eq_false_iff] at h
  exact ⟨h.1.1, h.1.2, h.2⟩


theorem no_start_in_clean {q f : List Char} (h : cleanB q f = true) (t : List Char) :
    f ≠ [] → prefB q (f ++ t) = false := by
  intro hf
  cases f with
  | nil => exact absurd rfl hf
  | cons c cs =>
    obtain ⟨h1, h2, _⟩ := cleanB_cons h
    by_contra hcon
    rcases pref_extend t (Bool.not_eq_false _ ▸ hcon) with hp | hp
    · exact absurd hp (by simp [h1])
    · exact absurd hp (by simp [h2])


theorem replA_append_clean {p f : List Char} (v : List Char)
    (h : cleanB p f = true) (t : List Char) :
    replA p v (f ++ t) = f ++ replA p v t := by
  induction f with
  | nil => rfl
  | cons c cs ih =>
    obtain ⟨_, _, h3⟩ := cleanB_cons h
    have hns : prefB p ((c :: cs) ++ t) = false := no_start_in_clean h t (by simp)
    rw [List.cons_append, replA]
    simp only [List.cons_append] at hns
    simp [hns, ih h3]


theorem drop_append_self (l₁ l₂ : List Char) : (l₁ ++ l₂).drop l₁.length = l₂ := by
  induction l₁ with
  | nil => rfl
  | cons a as ih =>
    simp only [List.cons_append, List.length_cons, List.drop_succ_cons]
    exact ih


theorem replA_match {p : List Char} (v : List Char) (hp : p ≠ []) (t : List Char) :
    replA p v (p ++ t) = v ++ replA p v t := by
  cases p with
  | nil => exact absurd rfl hp
  | cons a as =>
    rw [List.cons_append, replA]
    have hpre : prefB (a :: as) ((a :: as) ++ t) = true := prefB_append_self _ _
    simp only [List.cons_append] at hpre
    simp only [List.isEmpty_cons, Bool.not_false, hpre, Bool.and_self, if_true]
    have hdrop : (as ++ t).drop ((a :: as).length - 1) = t := by
      simp only [List.length_cons, Nat.add_sub_cancel]
      exact drop_append_self as t
    rw [hdrop]


theorem replA_nil (p v : List Char) : replA p v [] = [] := by rw [replA]


theorem replA_clean_id {p f : List Char} (v : List Char) (h : cleanB p f = true) :
    replA p v f = f := by
  have h2 := replA_append_clean v h []
  rw [replA_nil, List.append_nil] at h2
  exact h2


theorem occB_append_clean {q f : List Char} (h : cleanB q f = true) (t : List Char) :
    occB q (f ++ t) = occB q t := by
  induction f with
  | nil => rfl
  | cons c cs ih =>
    obtain ⟨_, _, h3⟩ := cleanB_cons h
    have hns : prefB q ((c :: cs) ++ t) = false := no_start_in_clean h t (by simp)
    simp only [List.cons_append] at hns ⊢
    rw [occB, hns]
    simp only [Bool.false_or]
    exact ih h3


theorem occB_append_right {q : List Char} (f : List Char) {t : List Char}
    (h : occB q t = true) : occB q (f ++ t) = true := by
  induction f with
  | nil => exact h
  | cons c cs ih => simp [occB, ih]


theorem occB_append_left {q f : List Char} (h : occB q f = true) (t : List Char) :
    occB q (f ++ t) = true := by
  induction f with
  | nil =>
    cases q with
    | nil =>
      cases t with
      | nil => exact h
      | cons b bs => simp [occB, prefB]
    | cons a as => simp [occB, prefB] at h
  | cons c cs ih =>
    rw [occB] at h
    rcases Bool.or_eq_true_iff.mp h with hp | ho
    · have := prefB_append_mono hp t
      simp only [List.cons_append] at this ⊢
      simp [occB, this]
    · simp [occB, ih ho]


theorem data_append_eq (f t : String) : (f ++ t).data = f.data ++ t.data := by
  cases f with
  | mk a => cases t with
    | mk b => rfl


theorem data_ne_nil {p : String} (hp : p ≠ "") : p.data ≠ [] := by
  intro hd
  exact hp (String.ext (by rw [hd]))


theorem jsReplaceAll_append_clean {p : String} (f v : String)
    (h : cleanS p f = true) (t : String) :
    jsReplaceAll (f ++ t) p v = f ++ jsReplaceAll t p v := by
  apply String.ext
  rw [jsReplaceAll, data_append_eq]
  show replA p.data v.data (f.data ++ t.data) = (f ++ jsReplaceAll t p v).data
  rw [replA_append_clean _ h, data_append_eq]
  rfl


theorem jsReplaceAll_match {p : String} (v : String) (hp : p ≠ "") (t : String) :
    jsReplaceAll (p ++ t) p v = v ++ jsReplaceAll t p v := by
  apply String.ext
  rw [jsReplaceAll, data_append_eq]
  show replA p.data v.data (p.data ++ t.data) = (v ++ jsReplaceAll t p v).data
  rw [replA_match _ (data_ne_nil hp), data_append_eq]
  rfl


theorem jsReplaceAll_clean_id {p : String} (f v : String) (h : cleanS p f = true) :
    jsReplaceAll f p v = f :=
  String.ext (replA_clean_id _ h)


theorem occursS_append_clean {q : String} (f : String) (h : cleanS q f = true)
    (t : String) : occursS q (f ++ t) = occursS q t := by
  rw [occursS, data_append_eq, occB_append_clean h]
  rfl


theorem occursS_append_right {q t : String} (f : String) (h : occursS q t = true) :
    occursS q (f ++ t) = true := by
  rw [occursS, data_append_eq]
  exact occB_append_right _ h


theorem occursS_append_left {q f : String} (h : occursS q f = true) (t : String) :
    occursS q (f ++ t) = true := by
  rw [occursS, data_append_eq]
  exact occB_append_left h _


/-! ## Theorems -/

/-- Inversion of a successful stack construction: validation and instance
type parsing succeeded and the output is the described resource record. -/
theorem buildStack_ok_inv {classKeys sizeKeys : List String} {cfg : Config}
    {out : StackOut} (h : buildStack classKeys sizeKeys cfg = Except.ok out) :
    ∃ classKey sizeKey,
      validateConfig cfg = Except.ok () ∧
      parseInstanceType classKeys sizeKeys cfg.instanceType = Except.ok (classKey, sizeKey) ∧
      out = { ingressRules := [(443, "HTTPS access for code-server"),
                               (80, "HTTP for Lets Encrypt validation"),
                               (22, "SSH access")]
              instances := [{ instanceClassKey := classKey, instanceSizeKey := sizeKey,
                              keyPairName := cfg.keyPairName, volumeSize := cfg.volumeSize,
                              userData := renderUserData cfg }]
              eips := if elasticIpOn cfg then [{ domain := "vpc" }] else []
              eipAssociations := if elasticIpOn cfg then [()] else []
              aRecords :=
                if elasticIpOn cfg && hostedZoneOn cfg then
                  [{ hostedZoneId := (match cfg.hostedZoneId with | some z => z | none => "")
                     zoneName := parentDomain cfg.domain
                     recordName := cfg.domain
                     target := IpRef.eipPublicIp
                     ttlMinutes := 5 }]
                else []
              publicIpValue :=
                if elasticIpOn cfg then IpRef.eipPublicIp else IpRef.instancePublicIp
              publicIpDescription :=
                if elasticIpOn cfg then "Elastic IP address (static)"
                else "Public IP address (changes on restart)"
              accessUrl := "https://" ++ cfg.domain
              sshCommand := "ssh ec2-user@" ++ cfg.domain
              dnsSetupValue :=
                if elasticIpOn cfg && hostedZoneOn cfg then
                  "DNS A record created automatically for " ++ cfg.domain
                else "Create A record: " ++ cfg.domain ++ " -> <PublicIP>"
              dnsSetupDescription :=
                if elasticIpOn cfg && hostedZoneOn cfg then "DNS configured automatically via CDK"
                else "DNS configuration required (manual setup in Route 53)"
              passwordLocation :=
                "SSM Parameter Store: " ++ cfg.ssmPasswordParameterName } := by
  unfold buildStack at h
  cases hv : validateConfig cfg with
  | error e =>
    rw [hv] at h
    simp [Bind.bind, Except.bind] at h
  | ok u =>
    cases u
    rw [hv] at h
    cases hp : parseInstanceType classKeys sizeKeys cfg.instanceType with
    | error e =>
      rw [hp] at h
      simp [Bind.bind, Except.bind] at h
    | ok pair =>
      obtain ⟨classKey, sizeKey⟩ := pair
      rw [hp] at h
      refine ⟨classKey, sizeKey, rfl, rfl, ?_⟩
      simp only [Bind.bind, Except.bind, Except.ok.injEq] at h
      exact h.symm


theorem prefB_refl (p : List Char) : prefB p p = true := by
  have h := prefB_append_self p []
  rwa [List.append_nil] at h


theorem occursS_self (s : String) : occursS s s = true := by
  rw [occursS]
  cases hd : s.data with
  | nil => rfl
  | cons c cs =>
    rw [occB]
    simp [prefB_refl]


/-- C1: for every configuration accepted by the stack constructor with
`useElasticIp` truthy and a truthy `hostedZoneId`, the composed output
contains exactly one DNS A record; its record name is the configured domain
and its target is the Elastic IP address. -/
theorem composer_elastic_zone_single_arecord
    (classKeys sizeKeys : List String) (cfg : Config) (out : StackOut)
    (h : buildStack classKeys sizeKeys cfg = Except.ok out)
    (hE : elasticIpOn cfg = true) (hZ : hostedZoneOn cfg = true) :
    out.aRecords.length = 1 ∧
      ∀ r ∈ out.aRecords, r.recordName = cfg.domain ∧ r.target = IpRef.eipPublicIp := by
  obtain ⟨classKey, sizeKey, hv, hp, rfl⟩ := buildStack_ok_inv h
  simp [hE, hZ]


theorem composer_elastic_zone_single_arecord_witness :
    elasticIpOn cfgExample = true ∧ hostedZoneOn cfgExample = true ∧
    ∃ out, buildStack classKeysEx sizeKeysEx cfgExample = Except.ok out ∧
      out.aRecords.length = 1 ∧
      ∀ r ∈ out.aRecords, r.recordName = cfgExample.domain ∧ r.target = IpRef.eipPublicIp := by
  have hex : ∃ out, buildStack classKeysEx sizeKeysEx cfgExample = Except.ok out := ⟨_, rfl⟩
  obtain ⟨out, hout⟩ := hex
  have hm := composer_elastic_zone_single_arecord classKeysEx sizeKeysEx cfgExample out hout rfl rfl
  exact ⟨rfl, rfl, out, hout, hm.1, hm.2⟩


/-- C2: with `useElasticIp` falsy the composed output contains no Elastic IP,
no Elastic IP association and no DNS record, whatever `hostedZoneId` is, and
the advertised public address is the instance's ephemeral one. -/
theorem composer_no_elastic_frame
    (classKeys sizeKeys : List String) (cfg : Config) (out : StackOut)
    (h : buildStack classKeys sizeKeys cfg = Except.ok out)
    (hE : elasticIpOn cfg = false) :
    out.eips = [] ∧ out.eipAssociations = [] ∧ out.aRecords = [] ∧
      out.publicIpValue = IpRef.instancePublicIp ∧
      out.publicIpDescription = "Public IP address (changes on restart)" := by
  obtain ⟨classKey, sizeKey, hv, hp, rfl⟩ := buildStack_ok_inv h
  simp [hE]


theorem composer_no_elastic_frame_witness :
    elasticIpOn { cfgExample with useElasticIp := some false } = false ∧
    ∃ out, buildStack classKeysEx sizeKeysEx { cfgExample with useElasticIp := some false } =
        Except.ok out ∧
      out.eips = [] ∧ out.eipAssociations = [] ∧ out.aRecords = [] ∧
      out.publicIpValue = IpRef.instancePublicIp := by
  have hex : ∃ out, buildStack classKeysEx sizeKeysEx
      { cfgExample with useElasticIp := some false } = Except.ok out := ⟨_, rfl⟩
  obtain ⟨out, hout⟩ := hex
  have hm := composer_no_elastic_frame classKeysEx sizeKeysEx _ out hout rfl
  exact ⟨rfl, out, hout, hm.1, hm.2.1, hm.2.2.1, hm.2.2.2.1⟩


/-- C3: with `useElasticIp` truthy and no truthy `hostedZoneId`, the composed
output allocates exactly one Elastic IP and one instance, contains no DNS
record, and its DNS output is the manual-setup instruction, which mentions
the configured domain. -/
theorem composer_elastic_manual_dns
    (classKeys sizeKeys : List String) (cfg : Config) (out : StackOut)
    (h : buildStack classKeys sizeKeys cfg = Except.ok out)
    (hE : elasticIpOn cfg = true) (hZ : hostedZoneOn cfg = false) :
    out.eips.length = 1 ∧ out.instances.length = 1 ∧ out.aRecords = [] ∧
      out.dnsSetupValue = "Create A record: " ++ cfg.domain ++ " -> <PublicIP>" ∧
      out.dnsSetupDescription = "DNS configuration required (manual setup in Route 53)" ∧
      occursS cfg.domain out.dnsSetupValue = true := by
  obtain ⟨classKey, sizeKey, hv, hp, rfl⟩ := buildStack_ok_inv h
  refine ⟨by simp [hE], by simp, by simp [hE, hZ], by simp [hE, hZ], by simp [hE, hZ], ?_⟩
  show occursS cfg.domain
      (if elasticIpOn cfg && hostedZoneOn cfg then
        "DNS A record created automatically for " ++ cfg.domain
      else "Create A record: " ++ cfg.domain ++ " -> <PublicIP>") = true
  rw [hE, hZ]
  simp only [Bool.and_false, if_false]
  exact occursS_append_left (occursS_append_right _ (occursS_self _)) _


theorem composer_elastic_manual_dns_witness :
    cfgManualDns.domain = "dev.example.com" ∧ cfgManualDns.volumeSize = 30 ∧
    cfgManualDns.hostedZoneId = none ∧ cfgManualDns.useElasticIp = some true ∧
    validateConfig cfgManualDns = Except.ok () ∧
    ∃ out, buildStack classKeysEx sizeKeysEx cfgManualDns = Except.ok out ∧
      out.eips.length = 1 ∧ out.instances.length = 1 ∧ out.aRecords = [] ∧
      occursS "dev.example.com" out.dnsSetupValue = true := by
  have hex : ∃ out, buildStack classKeysEx sizeKeysEx cfgManualDns = Except.ok out := ⟨_, rfl⟩
  obtain ⟨out, hout⟩ := hex
  have hm := composer_elastic_manual_dns classKeysEx sizeKeysEx cfgManualDns out hout rfl rfl
  exact ⟨rfl, rfl, rfl, rfl, by decide, out, hout, hm.1, hm.2.1, hm.2.2.1, hm.2.2.2.2.2⟩


/-- C8: supplying a `Z`-prefixed zone identifier while `useElasticIp` is
`false` or absent never changes the validation outcome: if the configuration
without the zone identifier validates, the combination is accepted (the zone
identifier is checked for its prefix only and the flag is not consulted). -/
theorem validator_accepts_zone_without_elastic
    (cfg : Config) (z : String) (u : Option Bool)
    (hz : startsWithB z "Z" = true)
    (_hu : u = none ∨ u = some false)
    (hrest : validateConfig { cfg with hostedZoneId := none } = Except.ok ()) :
    validateConfig { cfg with hostedZoneId := some z, useElasticIp := u } = Except.ok () := by
  unfold validateConfig at hrest ⊢
  simpa [hz] using hrest


theorem validator_accepts_zone_without_elastic_witness :
    startsWithB "Z0123456789ABC" "Z" = true ∧
    validateConfig { cfgExample with hostedZoneId := none } = Except.ok () ∧
    validateConfig cfgZoneNoEip = Except.ok () := by
  refine ⟨by decide, by decide, ?_⟩
  exact validator_accepts_zone_without_elastic cfgExample "Z0123456789ABC" none
    (by decide) (Or.inl rfl) (by decide)


/-- C9 (amended): past the domain, zone and parameter checks, the validator
rejects the email exactly when it is empty, lacks `@`, or lacks `.`; a dot
anywhere suffices, so acceptance guarantees the presence of `@` and of a dot
but not of a dot-separated segment after the `@`. -/
theorem validator_email_at_and_dot (cfg : Config)
    (h1 : (cfg.domain == "" || !domainFormatB cfg.domain) = false)
    (h2 : (match cfg.hostedZoneId with
           | some z => !(z == "") && !(startsWithB z "Z")
           | none => false) = false)
    (h3 : (cfg.ssmPasswordParameterName == "" ||
           !(startsWithB cfg.ssmPasswordParameterName "/")) = false) :
    (validateConfig cfg = Except.ok () →
      (containsCharB cfg.email '@' && containsCharB cfg.email '.') = true) ∧
    ((cfg.email == "" || !(containsCharB cfg.email '@') ||
        !(containsCharB cfg.email '.')) = true →
      validateConfig cfg = Except.error ("Invalid email format: \"" ++ cfg.email ++ "\"")) := by
  unfold validateConfig
  rw [h1, h2, h3]
  simp only [Bool.false_eq_true, if_false]
  constructor
  · intro hok
    by_contra hcon
    simp only [Bool.and_eq_true, not_and_or, Bool.not_eq_true] at hcon
    have hbad : (cfg.email == "" || !(containsCharB cfg.email '@') ||
        !(containsCharB cfg.email '.')) = true := by
      rcases hcon with hc | hc <;> simp [hc]
    rw [hbad] at hok
    simp at hok
  · intro hbad
    rw [hbad]
    simp


theorem validator_email_at_and_dot_witness :
    (cfgBadEmail.domain == "" || !domainFormatB cfgBadEmail.domain) = false ∧
    (cfgBadEmail.email == "" || !(containsCharB cfgBadEmail.email '@') ||
      !(containsCharB cfgBadEmail.email '.')) = true ∧
    validateConfig cfgBadEmail =
      Except.error ("Invalid email format: \"" ++ cfgBadEmail.email ++ "\"") := by
  refine ⟨by decide, by decide, ?_⟩
  exact (validator_email_at_and_dot cfgBadEmail (by decide) (by decide) (by decide)).2 (by decide)


/-- C9 counterexample: the email `a.b@c` has no dot-separated segment after
the `@`, yet the validator accepts the configuration, because the code checks
`includes('@')` and `includes('.')` independently. -/
theorem validator_email_no_segment_accepted :
    validateConfig cfgEmailNoSegment = Except.ok () ∧
    specEmailDomainSegment cfgEmailNoSegment.email = false := by decide


/-- Failure shape of `parseInstanceType`: when the descriptor does not split
on `.` into exactly two parts whose upper-cased forms are recognized keys,
parsing fails. -/
theorem parseInstanceType_error_of_bad (classKeys sizeKeys : List String) (s : String)
    (hbad : ¬ ∃ c z, splitOnCharS '.' s = [c, z] ∧
      toUpperS c ∈ classKeys ∧ toUpperS z ∈ sizeKeys) :
    ∃ e, parseInstanceType classKeys sizeKeys s = Except.error e := by
  unfold parseInstanceType
  cases hs : splitOnCharS '.' s with
  | nil => exact ⟨_, rfl⟩
  | cons c rest =>
    cases rest with
    | nil => exact ⟨_, rfl⟩
    | cons z rest2 =>
      cases rest2 with
      | cons w rest3 => exact ⟨_, rfl⟩
      | nil =>
        by_cases hc : toUpperS c ∈ classKeys
        · by_cases hzm : toUpperS z ∈ sizeKeys
          · exact absurd ⟨c, z, hs, hc, hzm⟩ hbad
          · exact ⟨"Unknown instance size: \"" ++ z ++ "\". Check AWS EC2 instance types.",
              by simp [hc, hzm]⟩
        · exact ⟨"Unknown instance class: \"" ++ c ++ "\". Check AWS EC2 instance types.",
            by simp [hc]⟩


/-- C10: for a validated configuration whose instance type descriptor does
not split on `.` into two recognized parts, the stack constructor aborts with
the instance-type error before describing any resource. -/
theorem stack_aborts_on_bad_instance_type
    (classKeys sizeKeys : List String) (cfg : Config)
    (hv : validateConfig cfg = Except.ok ())
    (hbad : ¬ ∃ c z, splitOnCharS '.' cfg.instanceType = [c, z] ∧
      toUpperS c ∈ classKeys ∧ toUpperS z ∈ sizeKeys) :
    ∃ e, buildStack classKeys sizeKeys cfg = Except.error e ∧
      parseInstanceType classKeys sizeKeys cfg.instanceType = Except.error e := by
  obtain ⟨e, he⟩ := parseInstanceType_error_of_bad classKeys sizeKeys cfg.instanceType hbad
  refine ⟨e, ?_, he⟩
  unfold buildStack
  rw [hv]
  simp only [Bind.bind, Except.bind]
  rw [he]


theorem stack_aborts_on_bad_instance_type_witness :
    validateConfig cfgBadType = Except.ok () ∧
    ∃ e, buildStack classKeysEx sizeKeysEx cfgBadType = Except.error e ∧
      parseInstanceType classKeysEx sizeKeysEx cfgBadType.instanceType = Except.error e := by
  refine ⟨by decide, ?_⟩
  refine stack_aborts_on_bad_instance_type classKeysEx sizeKeysEx cfgBadType (by decide) ?_
  rintro ⟨c, z, hcz, -, -⟩
  rw [show splitOnCharS '.' cfgBadType.instanceType = ["t4g"] from rfl] at hcz
  simp at hcz


theorem containsS_append_left {l : List String} (m : List String) {a : String}
    (h : l.contains a = true) : (l ++ m).contains a = true :=
  List.elem_eq_true_of_mem (List.mem_append_left m (List.elem_iff.mp h))


theorem containsS_append_self (l : List String) (a : String) :
    (l ++ [a]).contains a = true :=
  List.elem_eq_true_of_mem (List.mem_append_right l (List.mem_singleton_self a))


/-- Success conditions of the boot script run: the AWS CLI was present and
the SSM retrieval exited 0 with a non-empty value. -/
theorem runInitScript_ok_conditions {env : BootEnv} {p : BootParams} {st st1 : BootState}
    {log1 : BootLog} (h : runInitScript env p st = Except.ok (st1, log1)) :
    st.installedCommands.contains "aws" = true ∧
      (env.ssmExitCode == 0) = true ∧ (env.ssmOutput == "") = false := by
  simp only [runInitScript] at h
  split at h
  next c1 => exact absurd h (by simp)
  next c1 =>
  split at h
  next c2 => exact absurd h (by simp)
  next c2 =>
  split at h
  next c3 => exact absurd h (by simp)
  next c3 =>
  refine ⟨?_, ?_, ?_⟩
  · simpa using c1
  · simpa using c2
  · simpa using c3


theorem containsS_mem {l : List String} {a : String} (h : l.contains a = true) : a ∈ l :=
  List.elem_iff.mp h


theorem memS_contains {l : List String} {a : String} (h : a ∈ l) : l.contains a = true :=
  List.elem_eq_true_of_mem h


theorem not_memS {l : List String} {a : String} (h : l.contains a = false) : a ∉ l := by
  intro ha
  rw [memS_contains ha] at h
  exact absurd h (by decide)


theorem mem_if_append_self (l : List String) (y : String) :
    y ∈ (if (!l.contains y) = true then l ++ [y] else l) := by
  rcases Bool.eq_false_or_eq_true (l.contains y) with hb | hb
  · rw [if_neg (by simpa using containsS_mem hb)]
    exact containsS_mem hb
  · rw [if_pos (by simpa using not_memS hb)]
    exact List.mem_append_right _ (List.mem_singleton_self _)


theorem mem_if_append (l : List String) (y x : String) (hx : x ∈ l) :
    x ∈ (if (!l.contains y) = true then l ++ [y] else l) := by
  split
  · exact List.mem_append_left _ hx
  · exact hx


/-- State shape after a successful boot script run: the certificate for the
domain exists, claude is installed, the installed commands only grew, the
authorized-keys file is the one produced by step [7/8], and the retrieved
password became the code-server password. -/
theorem runInitScript_ok_state {env : BootEnv} {p : BootParams} {st st1 : BootState}
    {log1 : BootLog} (h : runInitScript env p st = Except.ok (st1, log1)) :
    st1.certDomains.contains p.domain = true ∧
      st1.installedCommands.contains "claude" = true ∧
      (∀ x, st.installedCommands.contains x = true →
        st1.installedCommands.contains x = true) ∧
      st1.authorizedKeys = addKeysStep p.additionalKeys st.authorizedKeys ∧
      st1.codeServerPassword = some env.ssmOutput ∧
      log1.passwordUsed = env.ssmOutput := by
  simp only [runInitScript] at h
  split at h
  next c1 => exact absurd h (by simp)
  next c1 =>
  split at h
  next c2 => exact absurd h (by simp)
  next c2 =>
  split at h
  next c3 => exact absurd h (by simp)
  next c3 =>
  rw [Except.ok.injEq, Prod.mk.injEq] at h
  obtain ⟨hst, hlog⟩ := h
  subst hst
  subst hlog
  refine ⟨?_, ?_, ?_, rfl, rfl, rfl⟩
  · exact memS_contains (mem_if_append_self st.certDomains p.domain)
  · exact memS_contains (mem_if_append_self _ "claude")
  · intro x hx
    exact memS_contains (mem_if_append _ "claude" _
      (mem_if_append _ "code-server" _ (containsS_mem hx)))


/-- When the certificate already exists and claude is already installed, a
run with working SSM retrieval succeeds and skips both steps. -/
theorem runInitScript_skips {env : BootEnv} {p : BootParams} {st : BootState}
    (haws : st.installedCommands.contains "aws" = true)
    (hssm : (env.ssmExitCode == 0) = true)
    (hpw : (env.ssmOutput == "") = false)
    (hcert : st.certDomains.contains p.domain = true)
    (hclaude : st.installedCommands.contains "claude" = true) :
    ∃ st2 log2, runInitScript env p st = Except.ok (st2, log2) ∧
      log2.ranCertbot = false ∧ log2.ranClaudeInstall = false := by
  simp only [runInitScript]
  rw [if_neg (by simpa using containsS_mem haws), if_neg (by simp [hssm]),
    if_neg (by simp [hpw])]
  refine ⟨_, _, rfl, ?_, ?_⟩
  · show (!st.certDomains.contains p.domain) = false
    simpa using containsS_mem hcert
  · show (!(if (!st.installedCommands.contains "code-server") = true then
      st.installedCommands ++ ["code-server"] else st.installedCommands).contains
      "claude") = false
    simp only [Bool.not_eq_false']
    exact memS_contains (mem_if_append _ "code-server" _ (containsS_mem hclaude))


/-- C5: re-running the boot script after a successful run skips both the
certificate issuance (the certificate file already exists) and the claude
installation (the command is already present). -/
theorem bootscript_rerun_skips
    (env : BootEnv) (p : BootParams) (st st1 : BootState) (log1 : BootLog)
    (h : runInitScript env p st = Except.ok (st1, log1)) :
    ∃ st2 log2, runInitScript env p st1 = Except.ok (st2, log2) ∧
      log2.ranCertbot = false ∧ log2.ranClaudeInstall = false := by
  obtain ⟨haws, hssm, hpw⟩ := runInitScript_ok_conditions h
  obtain ⟨hcert, hclaude, hmono, -, -, -⟩ := runInitScript_ok_state h
  exact runInitScript_skips (hmono _ haws) hssm hpw hcert hclaude


theorem bootscript_rerun_skips_witness :
    ∃ st1 log1, runInitScript envOk (bootParamsOf cfgExample) stFresh = Except.ok (st1, log1) ∧
      ∃ st2 log2, runInitScript envOk (bootParamsOf cfgExample) st1 = Except.ok (st2, log2) ∧
        log2.ranCertbot = false ∧ log2.ranClaudeInstall = false := by
  have hex : ∃ r, runInitScript envOk (bootParamsOf cfgExample) stFresh = Except.ok r := ⟨_, rfl⟩
  obtain ⟨⟨st1, log1⟩, h1⟩ := hex
  exact ⟨st1, log1, h1, bootscript_rerun_skips envOk (bootParamsOf cfgExample) stFresh st1 log1 h1⟩


/-- C7: with the AWS CLI available, step [2/8] has exactly three outcomes: a
non-zero exit status of the SSM call aborts with the retrieval-failure
message; a zero exit status with empty output aborts with the distinct
empty-result message; and a zero exit status with non-empty output lets the
script proceed with that output as the password. -/
theorem bootscript_ssm_outcomes (env : BootEnv) (p : BootParams) (st : BootState)
    (haws : st.installedCommands.contains "aws" = true) :
    (env.ssmExitCode ≠ 0 →
      runInitScript env p st =
        Except.error "ERROR: Failed to retrieve password from SSM Parameter Store") ∧
    (env.ssmExitCode = 0 → env.ssmOutput = "" →
      runInitScript env p st =
        Except.error ("ERROR: Retrieved empty password from SSM Parameter Store (" ++
          p.ssmPasswordParameter ++ ")")) ∧
    (env.ssmExitCode = 0 → env.ssmOutput ≠ "" →
      ∃ st1 log1, runInitScript env p st = Except.ok (st1, log1) ∧
        log1.passwordUsed = env.ssmOutput ∧
        st1.codeServerPassword = some env.ssmOutput) ∧
    "ERROR: Failed to retrieve password from SSM Parameter Store" ≠
      "ERROR: Retrieved empty password from SSM Parameter Store (" ++
        p.ssmPasswordParameter ++ ")" := by
  refine ⟨?_, ?_, ?_, ?_⟩
  · intro hne
    simp only [runInitScript]
    rw [if_neg (by simpa using containsS_mem haws),
      if_pos (by simp [hne])]
  · intro h0 hemp
    simp only [runInitScript]
    rw [if_neg (by simpa using containsS_mem haws),
      if_neg (by simp [h0]), if_pos (by simp [hemp])]
  · intro h0 hne
    simp only [runInitScript]
    rw [if_neg (by simpa using containsS_mem haws),
      if_neg (by simp [h0]), if_neg (by simp [hne])]
    exact ⟨_, _, rfl, rfl, rfl⟩
  · intro heq
    have h1 : startsWithB
        ("ERROR: Retrieved empty password from SSM Parameter Store (" ++
          p.ssmPasswordParameter ++ ")") "ERROR: Retrieved" = true := by
      rw [startsWithB, data_append_eq, data_append_eq]
      rw [List.append_assoc]
      exact prefB_append_mono (by decide) _
    rw [← heq] at h1
    exact absurd h1 (by decide)


theorem bootscript_ssm_outcomes_witness :
    stFresh.installedCommands.contains "aws" = true ∧
    runInitScript envFail (bootParamsOf cfgExample) stFresh =
      Except.error "ERROR: Failed to retrieve password from SSM Parameter Store" ∧
    runInitScript envEmpty (bootParamsOf cfgExample) stFresh =
      Except.error ("ERROR: Retrieved empty password from SSM Parameter Store (" ++
        (bootParamsOf cfgExample).ssmPasswordParameter ++ ")") ∧
    ∃ st1 log1, runInitScript envOk (bootParamsOf cfgExample) stFresh = Except.ok (st1, log1) ∧
      log1.passwordUsed = envOk.ssmOutput ∧
      st1.codeServerPassword = some envOk.ssmOutput := by
  refine ⟨by decide, ?_, ?_, ?_⟩
  · exact (bootscript_ssm_outcomes envFail (bootParamsOf cfgExample) stFresh (by decide)).1
      (by decide)
  · exact (bootscript_ssm_outcomes envEmpty (bootParamsOf cfgExample) stFresh (by decide)).2.1
      rfl rfl
  · exact (bootscript_ssm_outcomes envOk (bootParamsOf cfgExample) stFresh (by decide)).2.2.1
      rfl (by decide)


theorem splitOnCharA_no_sep {sep : Char} {l : List Char} (h : sep ∉ l) :
    splitOnCharA sep l = [l] := by
  induction l with
  | nil => rfl
  | cons c cs ih =>
    have hc : (c == sep) = false := by
      simp only [beq_eq_false_iff_ne, ne_eq]
      intro he
      exact h (he ▸ List.mem_cons_self c cs)
    rw [splitOnCharA, if_neg (by simp [hc]), ih (fun hm => h (List.mem_cons_of_mem c hm))]


theorem splitOnCharA_sep_append {sep : Char} {a : List Char} (h : sep ∉ a)
    (rest : List Char) :
    splitOnCharA sep (a ++ sep :: rest) = a :: splitOnCharA sep rest := by
  induction a with
  | nil =>
    show splitOnCharA sep (sep :: rest) = [] :: splitOnCharA sep rest
    rw [splitOnCharA, if_pos (by simp)]
  | cons c cs ih =>
    have hc : (c == sep) = false := by
      simp only [beq_eq_false_iff_ne, ne_eq]
      intro he
      exact h (he ▸ List.mem_cons_self c cs)
    rw [List.cons_append, splitOnCharA, if_neg (by simp [hc]),
      ih (fun hm => h (List.mem_cons_of_mem c hm))]


theorem splitLines_joinNl (ks : List String) (hne : ks ≠ [])
    (hnl : ∀ k ∈ ks, '\n' ∉ k.data) :
    splitOnCharS '\n' (joinNl ks) = ks := by
  induction ks with
  | nil => exact absurd rfl hne
  | cons k ks' ih =>
    cases ks' with
    | nil =>
      show splitOnCharS '\n' k = [k]
      rw [splitOnCharS, splitOnCharA_no_sep (hnl k (List.mem_cons_self k []))]
      rfl
    | cons k2 ks'' =>
      show splitOnCharS '\n' (k ++ "\n" ++ joinNl (k2 :: ks'')) = k :: k2 :: ks''
      rw [splitOnCharS]
      have hdata : (k ++ "\n" ++ joinNl (k2 :: ks'')).data =
          k.data ++ '\n' :: (joinNl (k2 :: ks'')).data := by
        rw [data_append_eq, data_append_eq, List.append_assoc]
        rfl
      rw [hdata, splitOnCharA_sep_append (hnl k (List.mem_cons_self k _))]
      have ih2 := ih (by simp) (fun x hx => hnl x (List.mem_cons_of_mem k hx))
      rw [splitOnCharS] at ih2
      show String.mk k.data :: (splitOnCharA '\n' (joinNl (k2 :: ks'')).data).map String.mk =
        k :: k2 :: ks''
      rw [ih2]


theorem any_occurs_eq_contains {k : String} (base seen : List String)
    (hbase : ∀ l ∈ base, occursS k l = false)
    (hseen : ∀ l ∈ seen, occursS k l = true ↔ k = l) :
    (base ++ seen).any (fun line => occursS k line) = seen.contains k := by
  rw [List.any_append]
  have hb : base.any (fun line => occursS k line) = false := by
    rw [List.any_eq_false]
    intro l hl
    simp [hbase l hl]
  rw [hb, Bool.false_or]
  rcases Bool.eq_false_or_eq_true (seen.contains k) with hc | hc
  · rw [hc, List.any_eq_true]
    exact ⟨k, containsS_mem hc, occursS_self k⟩
  · rw [hc, List.any_eq_false]
    intro l hl ho
    exact not_memS hc (by rw [(hseen l hl).mp ho]; exact hl)


theorem foldl_appendKeyLine_eq (ks : List String) :
    ∀ (seen base : List String),
    (∀ x ∈ ks, x ≠ "") →
    (∀ x ∈ ks, ∀ l ∈ base, occursS x l = false) →
    (∀ x ∈ ks, ∀ l ∈ seen, occursS x l = true ↔ x = l) →
    (∀ x ∈ ks, ∀ y ∈ ks, x ≠ y → occursS x y = false) →
    ks.foldl appendKeyLine (base ++ seen) = base ++ seen ++ dedupKeep seen ks := by
  induction ks with
  | nil =>
    intro seen base _ _ _ _
    simp [dedupKeep]
  | cons k ks' ih =>
    intro seen base hne hbase hseen hpair
    have hkmem : k ∈ k :: ks' := List.mem_cons_self k ks'
    rw [List.foldl_cons, appendKeyLine]
    have hk : (k == "") = false := beq_eq_false_iff_ne.mpr (hne k hkmem)
    have hany : (base ++ seen).any (fun line => occursS k line) = seen.contains k :=
      any_occurs_eq_contains base seen (hbase k hkmem) (hseen k hkmem)
    rcases Bool.eq_false_or_eq_true (seen.contains k) with hc | hc
    · -- already appended: skip
      rw [if_neg (by simp [hk, hany]; exact containsS_mem hc)]
      have ih2 := ih seen base
        (fun x hx => hne x (List.mem_cons_of_mem k hx))
        (fun x hx => hbase x (List.mem_cons_of_mem k hx))
        (fun x hx => hseen x (List.mem_cons_of_mem k hx))
        (fun x hx y hy => hpair x (List.mem_cons_of_mem k hx) y (List.mem_cons_of_mem k hy))
      rw [ih2, dedupKeep, if_pos hc]
    · -- not seen yet: append and continue with seen ++ [k]
      rw [if_pos (by simp [hk, hany]; exact not_memS hc), List.append_assoc base seen [k]]
      have ih2 := ih (seen ++ [k]) base
        (fun x hx => hne x (List.mem_cons_of_mem k hx))
        (fun x hx => hbase x (List.mem_cons_of_mem k hx))
        (fun x hx l hl => by
          rcases List.mem_append.mp hl with hl1 | hl1
          · exact hseen x (List.mem_cons_of_mem k hx) l hl1
          · rw [List.mem_singleton.mp hl1]
            constructor
            · intro ho
              by_contra hxk
              rw [hpair x (List.mem_cons_of_mem k hx) k hkmem hxk] at ho
              exact absurd ho (by simp)
            · intro he
              rw [he]
              exact occursS_self k)
        (fun x hx y hy => hpair x (List.mem_cons_of_mem k hx) y (List.mem_cons_of_mem k hy))
      rw [ih2, dedupKeep, if_neg (by simp; exact not_memS hc)]
      simp [List.append_assoc]


theorem dedupKeep_count_of_seen (ks : List String) :
    ∀ (seen : List String) (k : String), seen.contains k = true →
      (dedupKeep seen ks).count k = 0 := by
  induction ks with
  | nil =>
    intro seen k _
    rfl
  | cons x ks' ih =>
    intro seen k hk
    rw [dedupKeep]
    rcases Bool.eq_false_or_eq_true (seen.contains x) with hx | hx
    · rw [if_pos hx]
      exact ih seen k hk
    · rw [if_neg (by simp; exact not_memS hx)]
      have hxk : (x == k) = false := by
        refine beq_eq_false_iff_ne.mpr ?_
        intro he
        rw [he] at hx
        rw [hk] at hx
        exact absurd hx (by decide)
      rw [List.count_cons]
      simp only [hxk, if_false]
      have := ih (seen ++ [x]) k (containsS_append_left _ hk)
      simpa using this


theorem dedupKeep_count_of_new (ks : List String) :
    ∀ (seen : List String) (k : String), seen.contains k = false → k ∈ ks →
      (dedupKeep seen ks).count k = 1 := by
  induction ks with
  | nil =>
    intro _ k _ hk
    cases hk
  | cons x ks' ih =>
    intro seen k hseen hk
    rw [dedupKeep]
    rcases Bool.eq_false_or_eq_true (seen.contains x) with hx | hx
    · rw [if_pos hx]
      have hk' : k ∈ ks' := by
        rcases List.mem_cons.mp hk with he | hm
        · exfalso
          rw [he] at hseen
          rw [hx] at hseen
          exact absurd hseen (by decide)
        · exact hm
      exact ih seen k hseen hk'
    · rw [if_neg (by simp; exact not_memS hx)]
      by_cases hxk : x = k
      · subst hxk
        rw [List.count_cons]
        simp only [beq_self_eq_true, if_true]
        rw [dedupKeep_count_of_seen ks' (seen ++ [x]) x (containsS_append_self _ _)]
      · rw [List.count_cons]
        have hbe : (x == k) = false := beq_eq_false_iff_ne.mpr hxk
        simp only [hbe, if_false]
        have hseen' : (seen ++ [x]).contains k = false := by
          rcases Bool.eq_false_or_eq_true ((seen ++ [x]).contains k) with hb | hb
          · exfalso
            rcases List.mem_append.mp (containsS_mem hb) with hm | hm
            · exact not_memS hseen hm
            · exact hxk (List.mem_singleton.mp hm).symm
          · exact hb
        have hk' : k ∈ ks' := by
          rcases List.mem_cons.mp hk with he | hm
          · exact absurd he.symm hxk
          · exact hm
        simpa using ih (seen ++ [x]) k hseen' hk'


theorem count_eq_zero_of_not_occurs {base : List String} {k : String}
    (h : ∀ l ∈ base, occursS k l = false) : base.count k = 0 := by
  rw [List.count_eq_zero]
  intro hk
  have h2 := h k hk
  rw [occursS_self] at h2
  exact absurd h2 (by decide)


/-- C6 (amended): when all configured additional keys pass the validator's
pattern, at least one of them starts with `ssh-`, each key is a single line,
no key occurs as a substring of an initial authorized-keys line, and no key
occurs as a substring of a different configured key, a successful boot run
leaves every configured key in the authorized-keys file exactly once.
(Step [7/8] skips entirely when no key starts with `ssh-`, and its
duplicate check is a substring match over the file.) -/
theorem bootscript_appends_keys_once
    (cfg : Config) (ks : List String) (env : BootEnv) (st st1 : BootState) (log1 : BootLog)
    (hkeys : cfg.additionalSshPublicKeys = some ks)
    (hpat : ∀ k ∈ ks, sshKeyPatternB k = true)
    (hssh : ∃ k ∈ ks, startsWithB k "ssh-" = true)
    (hnl : ∀ k ∈ ks, '\n' ∉ k.data)
    (hbase : ∀ k ∈ ks, ∀ l ∈ st.authorizedKeys, occursS k l = false)
    (hpair : ∀ k ∈ ks, ∀ k' ∈ ks, k ≠ k' → occursS k k' = false)
    (hrun : runInitScript env (bootParamsOf cfg) st = Except.ok (st1, log1)) :
    ∀ k ∈ ks, st1.authorizedKeys.count k = 1 := by
  obtain ⟨-, -, -, hkeys1, -, -⟩ := runInitScript_ok_state hrun
  have hne : ∀ k ∈ ks, k ≠ "" := by
    intro k hk he
    have h2 := hpat k hk
    rw [he] at h2
    exact absurd h2 (by decide)
  have hks_ne : ks ≠ [] := by
    rintro rfl
    obtain ⟨k', hk', -⟩ := hssh
    cases hk'
  have hj : (bootParamsOf cfg).additionalKeys = joinNl ks := by
    show additionalSshKeysJoined cfg = joinNl ks
    rw [additionalSshKeysJoined, hkeys]
  intro k hk
  rw [hkeys1, hj, addKeysStep, splitLines_joinNl ks hks_ne hnl]
  obtain ⟨k', hk', hks'⟩ := hssh
  rw [if_pos (List.any_eq_true.mpr ⟨k', hk', hks'⟩)]
  have hfold := foldl_appendKeyLine_eq ks [] st.authorizedKeys hne hbase
    (by intro x _ l hl; cases hl) hpair
  rw [List.append_nil] at hfold
  rw [hfold, List.count_append, count_eq_zero_of_not_occurs (hbase k hk),
    dedupKeep_count_of_new ks [] k rfl hk]


theorem bootscript_appends_keys_once_witness :
    (∀ k ∈ twoKeys, sshKeyPatternB k = true) ∧
    ∃ st1 log1, runInitScript envOk (bootParamsOf cfgTwoKeys) stFresh = Except.ok (st1, log1) ∧
      ∀ k ∈ twoKeys, st1.authorizedKeys.count k = 1 := by
  have hex : ∃ r, runInitScript envOk (bootParamsOf cfgTwoKeys) stFresh = Except.ok r := ⟨_, rfl⟩
  obtain ⟨⟨st1, log1⟩, h1⟩ := hex
  refine ⟨by decide, st1, log1, h1, ?_⟩
  exact bootscript_appends_keys_once cfgTwoKeys twoKeys envOk stFresh st1 log1
    rfl (by decide) (by decide) (by decide) (by decide) (by decide) h1


/-- C6 counterexample: a single `ecdsa-sha2-nistp` key passes the validator's
key-type check, yet after a successful boot run it appears zero times in the
authorized-keys file, because step [7/8] is gated on `grep -q "^ssh-"`. -/
theorem bootscript_keys_skipped_for_ecdsa_counterexample :
    validateConfig cfgEcdsaOnly = Except.ok () ∧
    sshKeyPatternB ecdsaKey = true ∧
    cfgEcdsaOnly.additionalSshPublicKeys = some [ecdsaKey] ∧
    (runInitScript envOk (bootParamsOf cfgEcdsaOnly) stFresh).map
      (fun r => r.1.authorizedKeys.count ecdsaKey) = Except.ok 0 := by decide


theorem catS_cons (f : String) (rest : List String) : catS (f :: rest) = f ++ catS rest := rfl


theorem appendS_assoc (a b c : String) : a ++ b ++ c = a ++ (b ++ c) := by
  apply String.ext
  simp [data_append_eq, List.append_assoc]


theorem appendS_empty (a : String) : a ++ "" = a := by
  apply String.ext
  rw [data_append_eq]
  show a.data ++ [] = a.data
  exact List.append_nil _


theorem jsRepl_cat_nil (p v : String) : jsReplaceAll (catS []) p v = "" := by
  show jsReplaceAll "" p v = ""
  apply String.ext
  show replA p.data v.data ("" : String).data = ("" : String).data
  rw [show ("" : String).data = ([] : List Char) from rfl, replA_nil]


theorem peel_cat {p : String} (f v : String) (rest : List String) (h : cleanS p f = true) :
    jsReplaceAll (catS (f :: rest)) p v = f ++ jsReplaceAll (catS rest) p v := by
  rw [catS_cons]
  exact jsReplaceAll_append_clean f v h (catS rest)


theorem match_cat {p : String} (v : String) (rest : List String) (hp : p ≠ "") :
    jsReplaceAll (catS (p :: rest)) p v = v ++ jsReplaceAll (catS rest) p v := by
  rw [catS_cons]
  exact jsReplaceAll_match v hp (catS rest)


theorem catS_no_occurrence (q : String) (pieces : List String)
    (hq : q.data ≠ [])
    (h : ∀ x ∈ pieces, cleanS q x = true) :
    occursS q (catS pieces) = false := by
  induction pieces with
  | nil =>
    show occursS q "" = false
    rw [occursS]
    cases hd : q.data with
    | nil => exact absurd hd hq
    | cons c cs => rfl
  | cons x xs ih =>
    rw [catS_cons, occursS_append_clean x (h x (List.mem_cons_self x xs))]
    exact ih (fun y hy => h y (List.mem_cons_of_mem x hy))


/-! ### Cleanliness of the template pieces for each placeholder token -/

theorem clean_dom_s0 : cleanS tokDomain initShSeg0 = true := by decide


theorem clean_dom_s1 : cleanS tokDomain initShSeg1 = true := by decide


theorem clean_dom_s2 : cleanS tokDomain initShSeg2 = true := by decide


theorem clean_dom_s3 : cleanS tokDomain initShSeg3 = true := by decide


theorem clean_dom_s4 : cleanS tokDomain initShSeg4 = true := by decide


theorem clean_dom_s5 : cleanS tokDomain initShSeg5 = true := by decide


theorem clean_dom_s6 : cleanS tokDomain initShSeg6 = true := by decide


theorem clean_dom_s7 : cleanS tokDomain initShSeg7 = true := by decide


theorem clean_dom_s8 : cleanS tokDomain initShSeg8 = true := by decide


theorem clean_dom_s9 : cleanS tokDomain initShSeg9 = true := by decide


theorem clean_dom_s10 : cleanS tokDomain initShSeg10 = true := by decide


theorem clean_dom_s11 : cleanS tokDomain initShSeg11 = true := by decide


theorem clean_eml_s0 : cleanS tokEmail initShSeg0 = true := by decide


theorem clean_eml_s1 : cleanS tokEmail initShSeg1 = true := by decide


theorem clean_eml_s2 : cleanS tokEmail initShSeg2 = true := by decide


theorem clean_eml_s3 : cleanS tokEmail initShSeg3 = true := by decide


theorem clean_eml_s4 : cleanS tokEmail initShSeg4 = true := by decide


theorem clean_eml_s5 : cleanS tokEmail initShSeg5 = true := by decide


theorem clean_eml_s6 : cleanS tokEmail initShSeg6 = true := by decide


theorem clean_eml_s7 : cleanS tokEmail initShSeg7 = true := by decide


theorem clean_eml_s8 : cleanS tokEmail initShSeg8 = true := by decide


theorem clean_eml_s9 : cleanS tokEmail initShSeg9 = true := by decide


theorem clean_eml_s10 : cleanS tokEmail initShSeg10 = true := by decide


theorem clean_eml_s11 : cleanS tokEmail initShSeg11 = true := by decide


theorem clean_key_s0 : cleanS tokKeys initShSeg0 = true := by decide


theorem clean_key_s1 : cleanS tokKeys initShSeg1 = true := by decide


theorem clean_key_s2 : cleanS tokKeys initShSeg2 = true := by decide


theorem clean_key_s3 : cleanS tokKeys initShSeg3 = true := by decide


theorem clean_key_s4 : cleanS tokKeys initShSeg4 = true := by decide


theorem clean_key_s5 : cleanS tokKeys initShSeg5 = true := by decide


theorem clean_key_s6 : cleanS tokKeys initShSeg6 = true := by decide


theorem clean_key_s7 : cleanS tokKeys initShSeg7 = true := by decide


theorem clean_key_s8 : cleanS tokKeys initShSeg8 = true := by decide


theorem clean_key_s9 : cleanS tokKeys initShSeg9 = true := by decide


theorem clean_key_s10 : cleanS tokKeys initShSeg10 = true := by decide


theorem clean_key_s11 : cleanS tokKeys initShSeg11 = true := by decide


theorem clean_reg_s0 : cleanS tokRegion initShSeg0 = true := by decide


theorem clean_reg_s1 : cleanS tokRegion initShSeg1 = true := by decide


theorem clean_reg_s2 : cleanS tokRegion initShSeg2 = true := by decide


theorem clean_reg_s3 : cleanS tokRegion initShSeg3 = true := by decide


theorem clean_reg_s4 : cleanS tokRegion initShSeg4 = true := by decide


theorem clean_reg_s5 : cleanS tokRegion initShSeg5 = true := by decide


theorem clean_reg_s6 : cleanS tokRegion initShSeg6 = true := by decide


theorem clean_reg_s7 : cleanS tokRegion initShSeg7 = true := by decide


theorem clean_reg_s8 : cleanS tokRegion initShSeg8 = true := by decide


theorem clean_reg_s9 : cleanS tokRegion initShSeg9 = true := by decide


theorem clean_reg_s10 : cleanS tokRegion initShSeg10 = true := by decide


theorem clean_reg_s11 : cleanS tokRegion initShSeg11 = true := by decide


theorem clean_ssm_s0 : cleanS tokSsm initShSeg0 = true := by decide


theorem clean_ssm_s1 : cleanS tokSsm initShSeg1 = true := by decide


theorem clean_ssm_s2 : cleanS tokSsm initShSeg2 = true := by decide


theorem clean_ssm_s3 : cleanS tokSsm initShSeg3 = true := by decide


theorem clean_ssm_s4 : cleanS tokSsm initShSeg4 = true := by decide


theorem clean_ssm_s5 : cleanS tokSsm initShSeg5 = true := by decide


theorem clean_ssm_s6 : cleanS tokSsm initShSeg6 = true := by decide


theorem clean_ssm_s7 : cleanS tokSsm initShSeg7 = true := by decide


theorem clean_ssm_s8 : cleanS tokSsm initShSeg8 = true := by decide


theorem clean_ssm_s9 : cleanS tokSsm initShSeg9 = true := by decide


theorem clean_ssm_s10 : cleanS tokSsm initShSeg10 = true := by decide


theorem clean_ssm_s11 : cleanS tokSsm initShSeg11 = true := by decide


theorem clean_flg_s0 : cleanS tokFlag initShSeg0 = true := by decide


theorem clean_flg_s1 : cleanS tokFlag initShSeg1 = true := by decide


theorem clean_flg_s2 : cleanS tokFlag initShSeg2 = true := by decide


theorem clean_flg_s3 : cleanS tokFlag initShSeg3 = true := by decide


theorem clean_flg_s4 : cleanS tokFlag initShSeg4 = true := by decide


theorem clean_flg_s5 : cleanS tokFlag initShSeg5 = true := by decide


theorem clean_flg_s6 : cleanS tokFlag initShSeg6 = true := by decide


theorem clean_flg_s7 : cleanS tokFlag initShSeg7 = true := by decide


theorem clean_flg_s8 : cleanS tokFlag initShSeg8 = true := by decide


theorem clean_flg_s9 : cleanS tokFlag initShSeg9 = true := by decide


theorem clean_flg_s10 : cleanS tokFlag initShSeg10 = true := by decide


theorem clean_flg_s11 : cleanS tokFlag initShSeg11 = true := by decide


theorem clean_dom_c1 : cleanS tokDomain chunkC1 = true := by decide


theorem clean_dom_c6 : cleanS tokDomain chunkC6 = true := by decide


theorem clean_eml_c2 : cleanS tokEmail chunkC2 = true := by decide


theorem clean_eml_c6 : cleanS tokEmail chunkC6 = true := by decide


theorem clean_key_c2 : cleanS tokKeys chunkC2 = true := by decide


theorem clean_reg_c3 : cleanS tokRegion chunkC3 = true := by decide


theorem clean_ssm_c4 : cleanS tokSsm chunkC4 = true := by decide


theorem tokDomain_ne : tokDomain ≠ "" := by decide


theorem tokDomain_data_ne : tokDomain.data ≠ [] := by decide


theorem tokEmail_ne : tokEmail ≠ "" := by decide


theorem tokEmail_data_ne : tokEmail.data ≠ [] := by decide


theorem tokKeys_ne : tokKeys ≠ "" := by decide


theorem tokKeys_data_ne : tokKeys.data ≠ [] := by decide


theorem tokRegion_ne : tokRegion ≠ "" := by decide


theorem tokRegion_data_ne : tokRegion.data ≠ [] := by decide


theorem tokSsm_ne : tokSsm ≠ "" := by decide


theorem tokSsm_data_ne : tokSsm.data ≠ [] := by decide


theorem tokFlag_ne : tokFlag ≠ "" := by decide


theorem tokFlag_data_ne : tokFlag.data ≠ [] := by decide



/-! ### Per-pass decomposition of the rendering pipeline -/

theorem regroup1 : initShTemplate = catS [initShSeg0, tokDomain, chunkC1, tokDomain, initShSeg6, tokDomain, initShSeg7, tokDomain, initShSeg8, tokDomain, initShSeg9, tokDomain, chunkC6] := by
  simp [initShTemplate, chunkC1, chunkC6, catS, appendS_assoc, appendS_empty]


theorem regroup2 (vD : String) : catS [initShSeg0, vD, chunkC1, vD, initShSeg6, vD, initShSeg7, vD, initShSeg8, vD, initShSeg9, vD, chunkC6] = catS [initShSeg0, vD, initShSeg1, tokEmail, chunkC2, vD, initShSeg6, vD, initShSeg7, vD, initShSeg8, vD, initShSeg9, vD, chunkC6] := by
  simp [chunkC1, chunkC2, catS, appendS_assoc, appendS_empty]


theorem regroup3 (vD vE : String) : catS [initShSeg0, vD, initShSeg1, vE, chunkC2, vD, initShSeg6, vD, initShSeg7, vD, initShSeg8, vD, initShSeg9, vD, chunkC6] = catS [initShSeg0, vD, initShSeg1, vE, chunkC2, vD, initShSeg6, vD, initShSeg7, vD, initShSeg8, vD, initShSeg9, vD, initShSeg10, tokKeys, initShSeg11] := by
  simp [chunkC6, catS, appendS_assoc, appendS_empty]


theorem regroup4 (vD vE vK : String) : catS [initShSeg0, vD, initShSeg1, vE, chunkC2, vD, initShSeg6, vD, initShSeg7, vD, initShSeg8, vD, initShSeg9, vD, initShSeg10, vK, initShSeg11] = catS [initShSeg0, vD, initShSeg1, vE, initShSeg2, tokRegion, chunkC3, vD, initShSeg6, vD, initShSeg7, vD, initShSeg8, vD, initShSeg9, vD, initShSeg10, vK, initShSeg11] := by
  simp [chunkC2, chunkC3, catS, appendS_assoc, appendS_empty]


theorem regroup5 (vD vE vK vR : String) : catS [initShSeg0, vD, initShSeg1, vE, initShSeg2, vR, chunkC3, vD, initShSeg6, vD, initShSeg7, vD, initShSeg8, vD, initShSeg9, vD, initShSeg10, vK, initShSeg11] = catS [initShSeg0, vD, initShSeg1, vE, initShSeg2, vR, initShSeg3, tokSsm, chunkC4, vD, initShSeg6, vD, initShSeg7, vD, initShSeg8, vD, initShSeg9, vD, initShSeg10, vK, initShSeg11] := by
  simp [chunkC3, chunkC4, catS, appendS_assoc, appendS_empty]


theorem regroup6 (vD vE vK vR vS : String) : catS [initShSeg0, vD, initShSeg1, vE, initShSeg2, vR, initShSeg3, vS, chunkC4, vD, initShSeg6, vD, initShSeg7, vD, initShSeg8, vD, initShSeg9, vD, initShSeg10, vK, initShSeg11] = catS [initShSeg0, vD, initShSeg1, vE, initShSeg2, vR, initShSeg3, vS, initShSeg4, tokFlag, initShSeg5, vD, initShSeg6, vD, initShSeg7, vD, initShSeg8, vD, initShSeg9, vD, initShSeg10, vK, initShSeg11] := by
  simp [chunkC4, catS, appendS_assoc, appendS_empty]


theorem passDom (vD : String) :
    jsReplaceAll initShTemplate tokDomain vD = catS [initShSeg0, vD, chunkC1, vD, initShSeg6, vD, initShSeg7, vD, initShSeg8, vD, initShSeg9, vD, chunkC6] := by
  rw [regroup1]
  rw [peel_cat _ _ _ clean_dom_s0,
    match_cat _ _ tokDomain_ne,
    peel_cat _ _ _ clean_dom_c1,
    match_cat _ _ tokDomain_ne,
    peel_cat _ _ _ clean_dom_s6,
    match_cat _ _ tokDomain_ne,
    peel_cat _ _ _ clean_dom_s7,
    match_cat _ _ tokDomain_ne,
    peel_cat _ _ _ clean_dom_s8,
    match_cat _ _ tokDomain_ne,
    peel_cat _ _ _ clean_dom_s9,
    match_cat _ _ tokDomain_ne,
    peel_cat _ _ _ clean_dom_c6,
    jsRepl_cat_nil]
  simp [catS, appendS_empty]


theorem passEml (vD vE : String) (hDe : cleanS tokEmail vD = true) :
    jsReplaceAll (catS [initShSeg0, vD, chunkC1, vD, initShSeg6, vD, initShSeg7, vD, initShSeg8, vD, initShSeg9, vD, chunkC6]) tokEmail vE = catS [initShSeg0, vD, initShSeg1, vE, chunkC2, vD, initShSeg6, vD, initShSeg7, vD, initShSeg8, vD, initShSeg9, vD, chunkC6] := by
  rw [regroup2 vD]
  rw [peel_cat _ _ _ clean_eml_s0,
    peel_cat _ _ _ hDe,
    peel_cat _ _ _ clean_eml_s1,
    match_cat _ _ tokEmail_ne,
    peel_cat _ _ _ clean_eml_c2,
    peel_cat _ _ _ hDe,
    peel_cat _ _ _ clean_eml_s6,
    peel_cat _ _ _ hDe,
    peel_cat _ _ _ clean_eml_s7,
    peel_cat _ _ _ hDe,
    peel_cat _ _ _ clean_eml_s8,
    peel_cat _ _ _ hDe,
    peel_cat _ _ _ clean_eml_s9,
    peel_cat _ _ _ hDe,
    peel_cat _ _ _ clean_eml_c6,
    jsRepl_cat_nil]
  simp [catS, appendS_empty]


theorem passKey (vD vE vK : String) (hDk : cleanS tokKeys vD = true)
    (hEk : cleanS tokKeys vE = true) :
    jsReplaceAll (catS [initShSeg0, vD, initShSeg1, vE, chunkC2, vD, initShSeg6, vD, initShSeg7, vD, initShSeg8, vD, initShSeg9, vD, chunkC6]) tokKeys vK = catS [initShSeg0, vD, initShSeg1, vE, chunkC2, vD, initShSeg6, vD, initShSeg7, vD, initShSeg8, vD, initShSeg9, vD, initShSeg10, vK, initShSeg11] := by
  rw [regroup3 vD vE]
  rw [peel_cat _ _ _ clean_key_s0,
    peel_cat _ _ _ hDk,
    peel_cat _ _ _ clean_key_s1,
    peel_cat _ _ _ hEk,
    peel_cat _ _ _ clean_key_c2,
    peel_cat _ _ _ hDk,
    peel_cat _ _ _ clean_key_s6,
    peel_cat _ _ _ hDk,
    peel_cat _ _ _ clean_key_s7,
    peel_cat _ _ _ hDk,
    peel_cat _ _ _ clean_key_s8,
    peel_cat _ _ _ hDk,
    peel_cat _ _ _ clean_key_s9,
    peel_cat _ _ _ hDk,
    peel_cat _ _ _ clean_key_s10,
    match_cat _ _ tokKeys_ne,
    peel_cat _ _ _ clean_key_s11,
    jsRepl_cat_nil]
  simp [catS, appendS_empty]


theorem passReg (vD vE vK vR : String) (hDr : cleanS tokRegion vD = true)
    (hEr : cleanS tokRegion vE = true) (hKr : cleanS tokRegion vK = true) :
    jsReplaceAll (catS [initShSeg0, vD, initShSeg1, vE, chunkC2, vD, initShSeg6, vD, initShSeg7, vD, initShSeg8, vD, initShSeg9, vD, initShSeg10, vK, initShSeg11]) tokRegion vR = catS [initShSeg0, vD, initShSeg1, vE, initShSeg2, vR, chunkC3, vD, initShSeg6, vD, initShSeg7, vD, initShSeg8, vD, initShSeg9, vD, initShSeg10, vK, initShSeg11] := by
  rw [regroup4 vD vE vK]
  rw [peel_cat _ _ _ clean_reg_s0,
    peel_cat _ _ _ hDr,
    peel_cat _ _ _ clean_reg_s1,
    peel_cat _ _ _ hEr,
    peel_cat _ _ _ clean_reg_s2,
    match_cat _ _ tokRegion_ne,
    peel_cat _ _ _ clean_reg_c3,
    peel_cat _ _ _ hDr,
    peel_cat _ _ _ clean_reg_s6,
    peel_cat _ _ _ hDr,
    peel_cat _ _ _ clean_reg_s7,
    peel_cat _ _ _ hDr,
    peel_cat _ _ _ clean_reg_s8,
    peel_cat _ _ _ hDr,
    peel_cat _ _ _ clean_reg_s9,
    peel_cat _ _ _ hDr,
    peel_cat _ _ _ clean_reg_s10,
    peel_cat _ _ _ hKr,
    peel_cat _ _ _ clean_reg_s11,
    jsRepl_cat_nil]
  simp [catS, appendS_empty]


theorem passSsm (vD vE vK vR vS : String) (hDs : cleanS tokSsm vD = true)
    (hEs : cleanS tokSsm vE = true) (hKs : cleanS tokSsm vK = true)
    (hRs : cleanS tokSsm vR = true) :
    jsReplaceAll (catS [initShSeg0, vD, initShSeg1, vE, initShSeg2, vR, chunkC3, vD, initShSeg6, vD, initShSeg7, vD, initShSeg8, vD, initShSeg9, vD, initShSeg10, vK, initShSeg11]) tokSsm vS = catS [initShSeg0, vD, initShSeg1, vE, initShSeg2, vR, initShSeg3, vS, chunkC4, vD, initShSeg6, vD, initShSeg7, vD, initShSeg8, vD, initShSeg9, vD, initShSeg10, vK, initShSeg11] := by
  rw [regroup5 vD vE vK vR]
  rw [peel_cat _ _ _ clean_ssm_s0,
    peel_cat _ _ _ hDs,
    peel_cat _ _ _ clean_ssm_s1,
    peel_cat _ _ _ hEs,
    peel_cat _ _ _ clean_ssm_s2,
    peel_cat _ _ _ hRs,
    peel_cat _ _ _ clean_ssm_s3,
    match_cat _ _ tokSsm_ne,
    peel_cat _ _ _ clean_ssm_c4,
    peel_cat _ _ _ hDs,
    peel_cat _ _ _ clean_ssm_s6,
    peel_cat _ _ _ hDs,
    peel_cat _ _ _ clean_ssm_s7,
    peel_cat _ _ _ hDs,
    peel_cat _ _ _ clean_ssm_s8,
    peel_cat _ _ _ hDs,
    peel_cat _ _ _ clean_ssm_s9,
    peel_cat _ _ _ hDs,
    peel_cat _ _ _ clean_ssm_s10,
    peel_cat _ _ _ hKs,
    peel_cat _ _ _ clean_ssm_s11,
    jsRepl_cat_nil]
  simp [catS, appendS_empty]


theorem passFlg (vD vE vK vR vS vP : String) (hDp : cleanS tokFlag vD = true)
    (hEp : cleanS tokFlag vE = true) (hKp : cleanS tokFlag vK = true)
    (hRp : cleanS tokFlag vR = true) (hSp : cleanS tokFlag vS = true) :
    jsReplaceAll (catS [initShSeg0, vD, initShSeg1, vE, initShSeg2, vR, initShSeg3, vS, chunkC4, vD, initShSeg6, vD, initShSeg7, vD, initShSeg8, vD, initShSeg9, vD, initShSeg10, vK, initShSeg11]) tokFlag vP = catS [initShSeg0, vD, initShSeg1, vE, initShSeg2, vR, initShSeg3, vS, initShSeg4, vP, initShSeg5, vD, initShSeg6, vD, initShSeg7, vD, initShSeg8, vD, initShSeg9, vD, initShSeg10, vK, initShSeg11] := by
  rw [regroup6 vD vE vK vR vS]
  rw [peel_cat _ _ _ clean_flg_s0,
    peel_cat _ _ _ hDp,
    peel_cat _ _ _ clean_flg_s1,
    peel_cat _ _ _ hEp,
    peel_cat _ _ _ clean_flg_s2,
    peel_cat _ _ _ hRp,
    peel_cat _ _ _ clean_flg_s3,
    peel_cat _ _ _ hSp,
    peel_cat _ _ _ clean_flg_s4,
    match_cat _ _ tokFlag_ne,
    peel_cat _ _ _ clean_flg_s5,
    peel_cat _ _ _ hDp,
    peel_cat _ _ _ clean_flg_s6,
    peel_cat _ _ _ hDp,
    peel_cat _ _ _ clean_flg_s7,
    peel_cat _ _ _ hDp,
    peel_cat _ _ _ clean_flg_s8,
    peel_cat _ _ _ hDp,
    peel_cat _ _ _ clean_flg_s9,
    peel_cat _ _ _ hDp,
    peel_cat _ _ _ clean_flg_s10,
    peel_cat _ _ _ hKp,
    peel_cat _ _ _ clean_flg_s11,
    jsRepl_cat_nil]
  simp [catS, appendS_empty]


theorem renderedForm_cat (vD vE vK vR vS vP : String) :
    renderedForm vD vE vK vR vS vP = catS [initShSeg0, vD, initShSeg1, vE, initShSeg2, vR, initShSeg3, vS, initShSeg4, vP, initShSeg5, vD, initShSeg6, vD, initShSeg7, vD, initShSeg8, vD, initShSeg9, vD, initShSeg10, vK, initShSeg11] := by
  simp [renderedForm, catS, appendS_assoc, appendS_empty]


/-- The rendering pipeline applied to clean values: every placeholder
occurrence of the template is replaced by the corresponding value and nothing
else changes. -/
theorem renderDecomp (vD vE vK vR vS vP : String)
    (hDe : cleanS tokEmail vD = true) (hDk : cleanS tokKeys vD = true)
    (hDr : cleanS tokRegion vD = true) (hDs : cleanS tokSsm vD = true)
    (hDp : cleanS tokFlag vD = true)
    (hEk : cleanS tokKeys vE = true) (hEr : cleanS tokRegion vE = true)
    (hEs : cleanS tokSsm vE = true) (hEp : cleanS tokFlag vE = true)
    (hKr : cleanS tokRegion vK = true) (hKs : cleanS tokSsm vK = true)
    (hKp : cleanS tokFlag vK = true)
    (hRs : cleanS tokSsm vR = true) (hRp : cleanS tokFlag vR = true)
    (hSp : cleanS tokFlag vS = true) :
    jsReplaceAll (jsReplaceAll (jsReplaceAll (jsReplaceAll (jsReplaceAll (jsReplaceAll
      initShTemplate tokDomain vD) tokEmail vE) tokKeys vK) tokRegion vR)
      tokSsm vS) tokFlag vP = renderedForm vD vE vK vR vS vP := by
  rw [passDom vD, passEml vD vE hDe, passKey vD vE vK hDk hEk,
    passReg vD vE vK vR hDr hEr hKr, passSsm vD vE vK vR vS hDs hEs hKs hRs,
    passFlg vD vE vK vR vS vP hDp hEp hKp hRp hSp, renderedForm_cat]


theorem cleanConfigValues_parts {cfg : Config} (h : cleanConfigValues cfg = true) :
    valueCleanB cfg.domain = true ∧ valueCleanB cfg.email = true ∧
      valueCleanB (additionalSshKeysJoined cfg) = true ∧ valueCleanB cfg.region = true ∧
      valueCleanB cfg.ssmPasswordParameterName = true ∧
      valueCleanB (sshPasswordAuthValue cfg) = true := by
  simp only [cleanConfigValues, Bool.and_eq_true] at h
  exact ⟨h.1.1.1.1.1, h.1.1.1.1.2, h.1.1.1.2, h.1.1.2, h.1.2, h.2⟩


theorem valueCleanB_clean {v t : String} (h : valueCleanB v = true)
    (ht : t ∈ placeholderTokens) : cleanS t v = true := by
  simp only [valueCleanB, Bool.and_eq_true] at h
  exact List.all_eq_true.mp h.2 t ht


theorem renderPieces_clean (t vD vE vK vR vS vP : String)
    (h0 : cleanS t initShSeg0 = true) (h1 : cleanS t initShSeg1 = true)
    (h2 : cleanS t initShSeg2 = true) (h3 : cleanS t initShSeg3 = true)
    (h4 : cleanS t initShSeg4 = true) (h5 : cleanS t initShSeg5 = true)
    (h6 : cleanS t initShSeg6 = true) (h7 : cleanS t initShSeg7 = true)
    (h8 : cleanS t initShSeg8 = true) (h9 : cleanS t initShSeg9 = true)
    (h10 : cleanS t initShSeg10 = true) (h11 : cleanS t initShSeg11 = true)
    (hvD : cleanS t vD = true) (hvE : cleanS t vE = true) (hvK : cleanS t vK = true)
    (hvR : cleanS t vR = true) (hvS : cleanS t vS = true) (hvP : cleanS t vP = true) :
    ∀ x ∈ [initShSeg0, vD, initShSeg1, vE, initShSeg2, vR, initShSeg3, vS, initShSeg4,
      vP, initShSeg5, vD, initShSeg6, vD, initShSeg7, vD, initShSeg8, vD, initShSeg9,
      vD, initShSeg10, vK, initShSeg11], cleanS t x = true := by
  intro x hx
  simp only [List.mem_cons, List.not_mem_nil, or_false] at hx
  rcases hx with rfl|rfl|rfl|rfl|rfl|rfl|rfl|rfl|rfl|rfl|rfl|rfl|rfl|rfl|rfl|rfl|rfl|rfl|rfl|rfl|rfl|rfl|rfl
  exacts [h0, hvD, h1, hvE, h2, hvR, h3, hvS, h4, hvP, h5, hvD, h6, hvD, h7, hvD,
    h8, hvD, h9, hvD, h10, hvK, h11]


/-- C4 (amended): for a validated configuration whose substituted values are
clean — they contain no `$` and no position of them can start a placeholder
token — the rendered script is exactly the template with each of its eleven
placeholder occurrences replaced by the corresponding configuration value,
and no placeholder token occurs anywhere in the rendered script. -/
theorem renderUserData_substitutes_placeholders (cfg : Config)
    (hv : validateConfig cfg = Except.ok ())
    (hc : cleanConfigValues cfg = true) :
    renderUserData cfg =
      renderedForm cfg.domain cfg.email (additionalSshKeysJoined cfg) cfg.region
        cfg.ssmPasswordParameterName (sshPasswordAuthValue cfg) ∧
    ∀ q ∈ placeholderTokens, occursS q (renderUserData cfg) = false := by
  obtain ⟨hd, he, hk, hr, hs, hp⟩ := cleanConfigValues_parts hc
  have hDdom := valueCleanB_clean hd (by decide : tokDomain ∈ placeholderTokens)
  have hDeml := valueCleanB_clean hd (by decide : tokEmail ∈ placeholderTokens)
  have hDkey := valueCleanB_clean hd (by decide : tokKeys ∈ placeholderTokens)
  have hDreg := valueCleanB_clean hd (by decide : tokRegion ∈ placeholderTokens)
  have hDssm := valueCleanB_clean hd (by decide : tokSsm ∈ placeholderTokens)
  have hDflg := valueCleanB_clean hd (by decide : tokFlag ∈ placeholderTokens)
  have hEdom := valueCleanB_clean he (by decide : tokDomain ∈ placeholderTokens)
  have hEeml := valueCleanB_clean he (by decide : tokEmail ∈ placeholderTokens)
  have hEkey := valueCleanB_clean he (by decide : tokKeys ∈ placeholderTokens)
  have hEreg := valueCleanB_clean he (by decide : tokRegion ∈ placeholderTokens)
  have hEssm := valueCleanB_clean he (by decide : tokSsm ∈ placeholderTokens)
  have hEflg := valueCleanB_clean he (by decide : tokFlag ∈ placeholderTokens)
  have hKdom := valueCleanB_clean hk (by decide : tokDomain ∈ placeholderTokens)
  have hKeml := valueCleanB_clean hk (by decide : tokEmail ∈ placeholderTokens)
  have hKkey := valueCleanB_clean hk (by decide : tokKeys ∈ placeholderTokens)
  have hKreg := valueCleanB_clean hk (by decide : tokRegion ∈ placeholderTokens)
  have hKssm := valueCleanB_clean hk (by decide : tokSsm ∈ placeholderTokens)
  have hKflg := valueCleanB_clean hk (by decide : tokFlag ∈ placeholderTokens)
  have hRdom := valueCleanB_clean hr (by decide : tokDomain ∈ placeholderTokens)
  have hReml := valueCleanB_clean hr (by decide : tokEmail ∈ placeholderTokens)
  have hRkey := valueCleanB_clean hr (by decide : tokKeys ∈ placeholderTokens)
  have hRreg := valueCleanB_clean hr (by decide : tokRegion ∈ placeholderTokens)
  have hRssm := valueCleanB_clean hr (by decide : tokSsm ∈ placeholderTokens)
  have hRflg := valueCleanB_clean hr (by decide : tokFlag ∈ placeholderTokens)
  have hSdom := valueCleanB_clean hs (by decide : tokDomain ∈ placeholderTokens)
  have hSeml := valueCleanB_clean hs (by decide : tokEmail ∈ placeholderTokens)
  have hSkey := valueCleanB_clean hs (by decide : tokKeys ∈ placeholderTokens)
  have hSreg := valueCleanB_clean hs (by decide : tokRegion ∈ placeholderTokens)
  have hSssm := valueCleanB_clean hs (by decide : tokSsm ∈ placeholderTokens)
  have hSflg := valueCleanB_clean hs (by decide : tokFlag ∈ placeholderTokens)
  have hPdom := valueCleanB_clean hp (by decide : tokDomain ∈ placeholderTokens)
  have hPeml := valueCleanB_clean hp (by decide : tokEmail ∈ placeholderTokens)
  have hPkey := valueCleanB_clean hp (by decide : tokKeys ∈ placeholderTokens)
  have hPreg := valueCleanB_clean hp (by decide : tokRegion ∈ placeholderTokens)
  have hPssm := valueCleanB_clean hp (by decide : tokSsm ∈ placeholderTokens)
  have hPflg := valueCleanB_clean hp (by decide : tokFlag ∈ placeholderTokens)
  have hdecomp : renderUserData cfg =
      renderedForm cfg.domain cfg.email (additionalSshKeysJoined cfg) cfg.region
        cfg.ssmPasswordParameterName (sshPasswordAuthValue cfg) :=
    renderDecomp cfg.domain cfg.email (additionalSshKeysJoined cfg) cfg.region
      cfg.ssmPasswordParameterName (sshPasswordAuthValue cfg)
      hDeml hDkey hDreg hDssm hDflg hEkey hEreg hEssm hEflg hKreg hKssm hKflg
      hRssm hRflg hSflg
  refine ⟨hdecomp, ?_⟩
  intro q hq
  rw [hdecomp, renderedForm_cat]
  simp only [placeholderTokens, List.mem_cons, List.not_mem_nil, or_false] at hq
  rcases hq with rfl | rfl | rfl | rfl | rfl | rfl
  · exact catS_no_occurrence _ _ tokDomain_data_ne
      (renderPieces_clean tokDomain _ _ _ _ _ _ clean_dom_s0 clean_dom_s1 clean_dom_s2
        clean_dom_s3 clean_dom_s4 clean_dom_s5 clean_dom_s6 clean_dom_s7 clean_dom_s8
        clean_dom_s9 clean_dom_s10 clean_dom_s11 hDdom hEdom hKdom hRdom hSdom hPdom)
  · exact catS_no_occurrence _ _ tokEmail_data_ne
      (renderPieces_clean tokEmail _ _ _ _ _ _ clean_eml_s0 clean_eml_s1 clean_eml_s2
        clean_eml_s3 clean_eml_s4 clean_eml_s5 clean_eml_s6 clean_eml_s7 clean_eml_s8
        clean_eml_s9 clean_eml_s10 clean_eml_s11 hDeml hEeml hKeml hReml hSeml hPeml)
  · exact catS_no_occurrence _ _ tokKeys_data_ne
      (renderPieces_clean tokKeys _ _ _ _ _ _ clean_key_s0 clean_key_s1 clean_key_s2
        clean_key_s3 clean_key_s4 clean_key_s5 clean_key_s6 clean_key_s7 clean_key_s8
        clean_key_s9 clean_key_s10 clean_key_s11 hDkey hEkey hKkey hRkey hSkey hPkey)
  · exact catS_no_occurrence _ _ tokRegion_data_ne
      (renderPieces_clean tokRegion _ _ _ _ _ _ clean_reg_s0 clean_reg_s1 clean_reg_s2
        clean_reg_s3 clean_reg_s4 clean_reg_s5 clean_reg_s6 clean_reg_s7 clean_reg_s8
        clean_reg_s9 clean_reg_s10 clean_reg_s11 hDreg hEreg hKreg hRreg hSreg hPreg)
  · exact catS_no_occurrence _ _ tokSsm_data_ne
      (renderPieces_clean tokSsm _ _ _ _ _ _ clean_ssm_s0 clean_ssm_s1 clean_ssm_s2
        clean_ssm_s3 clean_ssm_s4 clean_ssm_s5 clean_ssm_s6 clean_ssm_s7 clean_ssm_s8
        clean_ssm_s9 clean_ssm_s10 clean_ssm_s11 hDssm hEssm hKssm hRssm hSssm hPssm)
  · exact catS_no_occurrence _ _ tokFlag_data_ne
      (renderPieces_clean tokFlag _ _ _ _ _ _ clean_flg_s0 clean_flg_s1 clean_flg_s2
        clean_flg_s3 clean_flg_s4 clean_flg_s5 clean_flg_s6 clean_flg_s7 clean_flg_s8
        clean_flg_s9 clean_flg_s10 clean_flg_s11 hDflg hEflg hKflg hRflg hSflg hPflg)


theorem renderUserData_substitutes_placeholders_witness :
    validateConfig cfgExample = Except.ok () ∧ cleanConfigValues cfgExample = true ∧
      (renderUserData cfgExample =
        renderedForm cfgExample.domain cfgExample.email (additionalSshKeysJoined cfgExample)
          cfgExample.region cfgExample.ssmPasswordParameterName
          (sshPasswordAuthValue cfgExample) ∧
      ∀ q ∈ placeholderTokens, occursS q (renderUserData cfgExample) = false) :=
  ⟨by decide, by decide,
    renderUserData_substitutes_placeholders cfgExample (by decide) (by decide)⟩


/-- C4 counterexample part: the configuration cfgRegionInjection passes the
Validator (the region field is never validated) yet its rendered boot script
still contains the literal domain placeholder token, because the region value
x__DOMAIN__x is substituted in an earlier pass and then rescanned by the
later passes of the chained replace calls. -/
theorem render_region_injection_counterexample :
    validateConfig cfgRegionInjection = Except.ok () ∧
      occursS tokDomain (renderUserData cfgRegionInjection) = true := by
  refine ⟨by decide, ?_⟩
  have hd : renderUserData cfgRegionInjection =
      renderedForm "dev.example.com" "your@email.com" "" "x__DOMAIN__x"
        "/claude-server/code-server-password" "false" :=
    renderDecomp "dev.example.com" "your@email.com" "" "x__DOMAIN__x"
      "/claude-server/code-server-password" "false"
      (by decide) (by decide) (by decide) (by decide) (by decide) (by decide)
      (by decide) (by decide) (by decide) (by decide) (by decide) (by decide)
      (by decide) (by decide) (by decide)
  rw [hd, renderedForm_cat, catS_cons]
  apply occursS_append_right
  rw [catS_cons]
  apply occursS_append_right
  rw [catS_cons]
  apply occursS_append_right
  rw [catS_cons]
  apply occursS_append_right
  rw [catS_cons]
  apply occursS_append_right
  rw [catS_cons]
  exact occursS_append_left (by decide) _
